import Mathlib

/-!
Shallow embedding of the hand-challenge interpreter
(src/rust-interpreter/src/main.rs): an esoteric, Brainfuck-isomorphic
language with seven emoji instructions, a forward-growing byte tape,
a bidirectional jump table for loop markers, and an output byte sink.

Modelling conventions:
* `u8` cells are `Nat` values kept below 256 by taking `% 256` exactly
  where the Rust code uses `overflowing_add` / `overflowing_sub`.
* The `usize` cursor is a `Nat` reduced `% 2^64` at the two arithmetic
  operations the source performs on it (`cursor + 1`, `cursor - 1`),
  mirroring the wrapping behaviour of release-mode Rust (a debug build
  panics at the same inputs; either way no typed error is produced).
* Rust's `HashMap<usize, usize>` is modelled as a function
  `Nat → Option Nat` with `insert` as pointwise update — faithful
  because the interpreter only ever calls `insert` and `get`.
* The output writer is modelled as the list of bytes written so far.
* The `while let Some(ins) = instructions.get(flow_offset)` loop is run
  with explicit fuel; `none` means the fuel was exhausted, `some st`
  means the loop exited normally (program counter left the program),
  i.e. the Rust function returned `Ok(())` with final state `st`.
-/

namespace Hand

/-- The seven instructions of the language, from `enum Instruction`
in the source (👉 👈 👆 👇 🤜 🤛 👊). -/
inductive Instruction where
  | Next
  | Previous
  | Increment
  | Decrease
  | LoopStart
  | LoopEnd
  | Print
deriving DecidableEq, Repr

/-- `2 ^ 64`, the modulus of Rust's 64-bit `usize` arithmetic. -/
def USIZE : Nat := 18446744073709551616

/-- The mutable state of `run_hand_ast`: the byte tape (`buffer`), the
tape cursor, the program counter (`flow_offset`), and the bytes written
to the output sink so far. -/
structure State where
  buffer : List Nat
  cursor : Nat
  flow_offset : Nat
  output : List Nat
deriving DecidableEq, Repr

/-- `HashMap::insert`: pointwise update of the map model. -/
def mapInsert (m : Nat → Option Nat) (k v : Nat) : Nat → Option Nat :=
  fun x => if x = k then some v else m x

/-- The scan loop of `calc_wormholes`: walks the remaining instructions
with the current `offset`, the stack of pending `LoopStart` offsets
(head = most recently pushed, i.e. the end of the Rust `Vec`), and the
map built so far.  On `LoopStart` the offset is pushed; on `LoopEnd`,
if the stack is nonempty, the top is popped and the bidirectional pair
is inserted; an unmatched `LoopEnd` is silently skipped (the source's
`if let Some(start) = starts.pop()` with no else branch). -/
def calcAux : List Instruction → Nat → List Nat → (Nat → Option Nat) → Nat → Option Nat
  | [], _, _, m => m
  | .LoopStart :: rest, offset, starts, m =>
      calcAux rest (offset + 1) (offset :: starts) m
  | .LoopEnd :: rest, offset, starts, m =>
      match starts with
      | [] => calcAux rest (offset + 1) [] m
      | start :: starts' =>
          calcAux rest (offset + 1) starts'
            (mapInsert (mapInsert m start offset) offset start)
  | _ :: rest, offset, starts, m => calcAux rest (offset + 1) starts m

/-- `calc_wormholes`: builds the jump table of a program. -/
def calc_wormholes (instructions : List Instruction) : Nat → Option Nat :=
  calcAux instructions 0 [] (fun _ => none)

/-- One iteration of the `while` loop body of `run_hand_ast`: executes
instruction `ins` (the instruction at `st.flow_offset`) against state
`st` with jump table `w`.  Every branch ends with the source's trailing
`flow_offset += 1`; the jump branches first overwrite `flow_offset`
with `wormholes_map.get(&flow_offset).unwrap_or(&0)`. -/
def execIns (w : Nat → Option Nat) (st : State) (ins : Instruction) : State :=
  match ins with
  | .Next =>
      let cursor := (st.cursor + 1) % USIZE
      let buffer := if cursor < st.buffer.length then st.buffer else st.buffer ++ [0]
      { st with cursor := cursor, buffer := buffer, flow_offset := st.flow_offset + 1 }
  | .Previous =>
      { st with cursor := (st.cursor + (USIZE - 1)) % USIZE,
                flow_offset := st.flow_offset + 1 }
  | .Increment =>
      match st.buffer[st.cursor]? with
      | some v => { st with buffer := st.buffer.set st.cursor ((v + 1) % 256),
                            flow_offset := st.flow_offset + 1 }
      | none => { st with flow_offset := st.flow_offset + 1 }
  | .Decrease =>
      match st.buffer[st.cursor]? with
      | some v => { st with buffer := st.buffer.set st.cursor ((v + 255) % 256),
                            flow_offset := st.flow_offset + 1 }
      | none => { st with flow_offset := st.flow_offset + 1 }
  | .LoopStart =>
      match st.buffer[st.cursor]? with
      | some v =>
          if v = 0 then
            { st with flow_offset := (w st.flow_offset).getD 0 + 1 }
          else
            { st with flow_offset := st.flow_offset + 1 }
      | none => { st with flow_offset := st.flow_offset + 1 }
  | .LoopEnd =>
      match st.buffer[st.cursor]? with
      | some v =>
          if v ≠ 0 then
            { st with flow_offset := (w st.flow_offset).getD 0 + 1 }
          else
            { st with flow_offset := st.flow_offset + 1 }
      | none => { st with flow_offset := st.flow_offset + 1 }
  | .Print =>
      match st.buffer[st.cursor]? with
      | some v => { st with output := st.output ++ [v],
                            flow_offset := st.flow_offset + 1 }
      | none => { st with flow_offset := st.flow_offset + 1 }

/-- The `while let Some(ins) = instructions.get(flow_offset)` loop,
with explicit fuel.  `some st` = the loop exited (the Rust function
returned `Ok(())`); `none` = fuel ran out first. -/
def runFor (prog : List Instruction) (w : Nat → Option Nat) : Nat → State → Option State
  | 0, _ => none
  | fuel + 1, st =>
      match prog[st.flow_offset]? with
      | none => some st
      | some ins => runFor prog w fuel (execIns w st ins)

/-- Pure iteration of the loop body: `steps prog w n st` executes up to
`n` instructions, halting (as the identity) once the program counter
leaves the program.  Used to split long concrete executions into
checkable segments. -/
def steps (prog : List Instruction) (w : Nat → Option Nat) : Nat → State → State
  | 0, st => st
  | n + 1, st =>
      match prog[st.flow_offset]? with
      | none => st
      | some ins => steps prog w n (execIns w st ins)

/-- The initial state of `run_hand_ast`: tape `vec![0u8]`, cursor 0,
program counter 0, nothing written yet. -/
def initState : State :=
  { buffer := [0], cursor := 0, flow_offset := 0, output := [] }

/-- `run_hand_ast` with explicit fuel: builds the jump table with
`calc_wormholes` and runs the interpreter loop from the initial state. -/
def run_hand_ast (fuel : Nat) (instructions : List Instruction) : Option State :=
  runFor instructions (calc_wormholes instructions) fuel initState

/-- The character-to-instruction recognition underlying
`parse_hand_code`: the seven `ins(c, v)` alternatives. -/
def charToIns (c : Char) : Option Instruction :=
  if c = '👉' then some .Next
  else if c = '👈' then some .Previous
  else if c = '👆' then some .Increment
  else if c = '👇' then some .Decrease
  else if c = '🤜' then some .LoopStart
  else if c = '🤛' then some .LoopEnd
  else if c = '👊' then some .Print
  else none

/-- The characters consumed by nom's `multispace0`:
space, tab, carriage return, line feed. -/
def isSpaceChar (c : Char) : Bool :=
  c = ' ' || c = '\t' || c = '\r' || c = '\n'

/-- `parse_hand_code`: `many0(preceded(multispace0, one-of-7))`
terminated by `(multispace0, eof)`.  Consumes interleaved whitespace
and symbols; succeeds (with the instruction list, in order) only if
the whole input is consumed — any other character makes the entire
parse fail, matching nom's `eof` rejection. -/
def parse_hand_code : List Char → Option (List Instruction)
  | [] => some []
  | c :: rest =>
      if isSpaceChar c then parse_hand_code rest
      else
        match charToIns c with
        | some i => (parse_hand_code rest).map (fun l => i :: l)
        | none => none

/-- The "Hello" program of the `test_hello` fixture. -/
def helloCode : String :=
  "👇🤜👇👇👇👇👇👇👇👉👆👈🤛👉👇👊👇🤜👇👉👆👆👆👆👆👈🤛👉👆👆👊👆👆👆👆👆👆👆👊👊👆👆👆👊"

open Instruction in
/-- The instruction sequence the lexer produces for `helloCode`
(checked below in the proof of the end-to-end theorem). -/
def helloProg : List Instruction :=
  [Decrease, LoopStart, Decrease, Decrease, Decrease, Decrease, Decrease, Decrease, Decrease,
   Next, Increment, Previous, LoopEnd, Next, Decrease, Print, Decrease, LoopStart, Decrease,
   Next, Increment, Increment, Increment, Increment, Increment, Previous, LoopEnd, Next,
   Increment, Increment, Print, Increment, Increment, Increment, Increment, Increment,
   Increment, Increment, Print, Print, Increment, Increment, Increment, Print]

/-- The jump table of the "Hello" program. -/
def helloWorm : Nat → Option Nat := calc_wormholes helloProg

/-- Unfolding equation: zero fuel. -/
lemma steps_zero (prog : List Instruction) (w : Nat → Option Nat) (st : State) :
    steps prog w 0 st = st := rfl

/-- Unfolding equation: one more step. -/
lemma steps_succ (prog : List Instruction) (w : Nat → Option Nat) (n : Nat) (st : State) :
    steps prog w (n + 1) st =
      match prog[st.flow_offset]? with
      | none => st
      | some ins => steps prog w n (execIns w st ins) := rfl

/-- Unfolding equation: exhausted fuel. -/
lemma runFor_zero (prog : List Instruction) (w : Nat → Option Nat) (st : State) :
    runFor prog w 0 st = none := rfl

/-- Unfolding equation: one more loop iteration. -/
lemma runFor_succ (prog : List Instruction) (w : Nat → Option Nat) (fuel : Nat) (st : State) :
    runFor prog w (fuel + 1) st =
      match prog[st.flow_offset]? with
      | none => some st
      | some ins => runFor prog w fuel (execIns w st ins) := rfl

/-- Once the program counter is outside the program, `steps` is the
identity: the `while` loop would already have exited. -/
lemma steps_stuck (prog : List Instruction) (w : Nat → Option Nat) (n : Nat) (st : State)
    (h : prog[st.flow_offset]? = none) : steps prog w n st = st := by
  induction n with
  | zero => rfl
  | succ n _ => rw [steps_succ, h]

/-- `steps` splits over sums of fuel. -/
lemma steps_add (prog : List Instruction) (w : Nat → Option Nat) (a b : Nat) (st : State) :
    steps prog w (a + b) st = steps prog w b (steps prog w a st) := by
  induction a generalizing st with
  | zero => rw [Nat.zero_add, steps_zero]
  | succ a ih =>
      cases h : prog[st.flow_offset]? with
      | none =>
          rw [steps_stuck prog w (a + 1 + b) st h, steps_stuck prog w (a + 1) st h,
            steps_stuck prog w b st h]
      | some i =>
          have l1 : steps prog w (a + 1 + b) st = steps prog w (a + b) (execIns w st i) := by
            rw [show a + 1 + b = (a + b) + 1 from by omega, steps_succ, h]
          have l2 : steps prog w (a + 1) st = steps prog w a (execIns w st i) := by
            rw [steps_succ, h]
          rw [l1, l2, ih]

/-- If after `n` steps the program counter has left the program, the
interpreter loop with fuel `n + 1` terminates in exactly that state. -/
lemma runFor_eq_of_steps (prog : List Instruction) (w : Nat → Option Nat) (n : Nat) (st : State)
    (h : prog[(steps prog w n st).flow_offset]? = none) :
    runFor prog w (n + 1) st = some (steps prog w n st) := by
  induction n generalizing st with
  | zero =>
      rw [steps_zero] at h ⊢
      rw [runFor_succ, h]
  | succ n ih =>
      cases h0 : prog[st.flow_offset]? with
      | none =>
          rw [steps_stuck prog w (n + 1) st h0] at h ⊢
          rw [runFor_succ, h0]
      | some i =>
          have hs : steps prog w (n + 1) st = steps prog w n (execIns w st i) := by
            rw [steps_succ, h0]
          rw [hs] at h ⊢
          rw [runFor_succ, h0]
          exact ih (execIns w st i) h

/-- Termination is stable under giving the loop more fuel. -/
lemma runFor_mono (prog : List Instruction) (w : Nat → Option Nat) (f g : Nat) (st : State)
    (r : State) (hr : runFor prog w f st = some r) (hfg : f ≤ g) :
    runFor prog w g st = some r := by
  induction f generalizing st g with
  | zero => rw [runFor_zero] at hr; exact Option.noConfusion hr
  | succ f ih =>
      obtain ⟨g', rfl⟩ : ∃ g', g = g' + 1 := ⟨g - 1, by omega⟩
      cases h0 : prog[st.flow_offset]? with
      | none =>
          rw [runFor_succ, h0] at hr ⊢
          exact hr
      | some i =>
          rw [runFor_succ, h0] at hr ⊢
          exact ih _ _ hr (by omega)

set_option maxHeartbeats 1000000 in
/-- Claim C1: running the interpreter (parse, then execute with the jump
table) on the 44-symbol program of the `test_hello` fixture terminates
(the loop exits within 1500 iterations, returning `some`) and writes to
the output sink exactly the bytes `[72, 101, 108, 108, 111]`, the ASCII
text "Hello".  The concrete execution (1473 instructions) is verified
in segments of eight steps through explicit intermediate states. -/
theorem c1_hello :
    ((parse_hand_code helloCode.data).bind (run_hand_ast 1500)).map State.output
      = some [72, 101, 108, 108, 111] := by
  have t1 : steps helloProg helloWorm 8 initState = ⟨[249], 0, 8, []⟩ := by rfl
  have t2 : steps helloProg helloWorm 8 ⟨[249], 0, 8, []⟩ = ⟨[245, 1], 0, 5, []⟩ := by rfl
  have t3 : steps helloProg helloWorm 8 ⟨[245, 1], 0, 5, []⟩ = ⟨[241, 2], 0, 2, []⟩ := by rfl
  have t4 : steps helloProg helloWorm 8 ⟨[241, 2], 0, 2, []⟩ = ⟨[234, 2], 1, 10, []⟩ := by rfl
  have t5 : steps helloProg helloWorm 8 ⟨[234, 2], 1, 10, []⟩ = ⟨[229, 3], 0, 7, []⟩ := by rfl
  have t6 : steps helloProg helloWorm 8 ⟨[229, 3], 0, 7, []⟩ = ⟨[225, 4], 0, 4, []⟩ := by rfl
  have t7 : steps helloProg helloWorm 8 ⟨[225, 4], 0, 4, []⟩ = ⟨[220, 5], 0, 12, []⟩ := by rfl
  have t8 : steps helloProg helloWorm 8 ⟨[220, 5], 0, 12, []⟩ = ⟨[213, 5], 0, 9, []⟩ := by rfl
  have t9 : steps helloProg helloWorm 8 ⟨[213, 5], 0, 9, []⟩ = ⟨[209, 6], 0, 6, []⟩ := by rfl
  have t10 : steps helloProg helloWorm 8 ⟨[209, 6], 0, 6, []⟩ = ⟨[205, 7], 0, 3, []⟩ := by rfl
  have t11 : steps helloProg helloWorm 8 ⟨[205, 7], 0, 3, []⟩ = ⟨[199, 8], 1, 11, []⟩ := by rfl
  have t12 : steps helloProg helloWorm 8 ⟨[199, 8], 1, 11, []⟩ = ⟨[193, 8], 0, 8, []⟩ := by rfl
  have t13 : steps helloProg helloWorm 8 ⟨[193, 8], 0, 8, []⟩ = ⟨[189, 9], 0, 5, []⟩ := by rfl
  have t14 : steps helloProg helloWorm 8 ⟨[189, 9], 0, 5, []⟩ = ⟨[185, 10], 0, 2, []⟩ := by rfl
  have t15 : steps helloProg helloWorm 8 ⟨[185, 10], 0, 2, []⟩ = ⟨[178, 10], 1, 10, []⟩ := by rfl
  have t16 : steps helloProg helloWorm 8 ⟨[178, 10], 1, 10, []⟩ = ⟨[173, 11], 0, 7, []⟩ := by rfl
  have t17 : steps helloProg helloWorm 8 ⟨[173, 11], 0, 7, []⟩ = ⟨[169, 12], 0, 4, []⟩ := by rfl
  have t18 : steps helloProg helloWorm 8 ⟨[169, 12], 0, 4, []⟩ = ⟨[164, 13], 0, 12, []⟩ := by rfl
  have t19 : steps helloProg helloWorm 8 ⟨[164, 13], 0, 12, []⟩ = ⟨[157, 13], 0, 9, []⟩ := by rfl
  have t20 : steps helloProg helloWorm 8 ⟨[157, 13], 0, 9, []⟩ = ⟨[153, 14], 0, 6, []⟩ := by rfl
  have t21 : steps helloProg helloWorm 8 ⟨[153, 14], 0, 6, []⟩ = ⟨[149, 15], 0, 3, []⟩ := by rfl
  have t22 : steps helloProg helloWorm 8 ⟨[149, 15], 0, 3, []⟩ = ⟨[143, 16], 1, 11, []⟩ := by rfl
  have t23 : steps helloProg helloWorm 8 ⟨[143, 16], 1, 11, []⟩ = ⟨[137, 16], 0, 8, []⟩ := by rfl
  have t24 : steps helloProg helloWorm 8 ⟨[137, 16], 0, 8, []⟩ = ⟨[133, 17], 0, 5, []⟩ := by rfl
  have t25 : steps helloProg helloWorm 8 ⟨[133, 17], 0, 5, []⟩ = ⟨[129, 18], 0, 2, []⟩ := by rfl
  have t26 : steps helloProg helloWorm 8 ⟨[129, 18], 0, 2, []⟩ = ⟨[122, 18], 1, 10, []⟩ := by rfl
  have t27 : steps helloProg helloWorm 8 ⟨[122, 18], 1, 10, []⟩ = ⟨[117, 19], 0, 7, []⟩ := by rfl
  have t28 : steps helloProg helloWorm 8 ⟨[117, 19], 0, 7, []⟩ = ⟨[113, 20], 0, 4, []⟩ := by rfl
  have t29 : steps helloProg helloWorm 8 ⟨[113, 20], 0, 4, []⟩ = ⟨[108, 21], 0, 12, []⟩ := by rfl
  have t30 : steps helloProg helloWorm 8 ⟨[108, 21], 0, 12, []⟩ = ⟨[101, 21], 0, 9, []⟩ := by rfl
  have t31 : steps helloProg helloWorm 8 ⟨[101, 21], 0, 9, []⟩ = ⟨[97, 22], 0, 6, []⟩ := by rfl
  have t32 : steps helloProg helloWorm 8 ⟨[97, 22], 0, 6, []⟩ = ⟨[93, 23], 0, 3, []⟩ := by rfl
  have t33 : steps helloProg helloWorm 8 ⟨[93, 23], 0, 3, []⟩ = ⟨[87, 24], 1, 11, []⟩ := by rfl
  have t34 : steps helloProg helloWorm 8 ⟨[87, 24], 1, 11, []⟩ = ⟨[81, 24], 0, 8, []⟩ := by rfl
  have t35 : steps helloProg helloWorm 8 ⟨[81, 24], 0, 8, []⟩ = ⟨[77, 25], 0, 5, []⟩ := by rfl
  have t36 : steps helloProg helloWorm 8 ⟨[77, 25], 0, 5, []⟩ = ⟨[73, 26], 0, 2, []⟩ := by rfl
  have t37 : steps helloProg helloWorm 8 ⟨[73, 26], 0, 2, []⟩ = ⟨[66, 26], 1, 10, []⟩ := by rfl
  have t38 : steps helloProg helloWorm 8 ⟨[66, 26], 1, 10, []⟩ = ⟨[61, 27], 0, 7, []⟩ := by rfl
  have t39 : steps helloProg helloWorm 8 ⟨[61, 27], 0, 7, []⟩ = ⟨[57, 28], 0, 4, []⟩ := by rfl
  have t40 : steps helloProg helloWorm 8 ⟨[57, 28], 0, 4, []⟩ = ⟨[52, 29], 0, 12, []⟩ := by rfl
  have t41 : steps helloProg helloWorm 8 ⟨[52, 29], 0, 12, []⟩ = ⟨[45, 29], 0, 9, []⟩ := by rfl
  have t42 : steps helloProg helloWorm 8 ⟨[45, 29], 0, 9, []⟩ = ⟨[41, 30], 0, 6, []⟩ := by rfl
  have t43 : steps helloProg helloWorm 8 ⟨[41, 30], 0, 6, []⟩ = ⟨[37, 31], 0, 3, []⟩ := by rfl
  have t44 : steps helloProg helloWorm 8 ⟨[37, 31], 0, 3, []⟩ = ⟨[31, 32], 1, 11, []⟩ := by rfl
  have t45 : steps helloProg helloWorm 8 ⟨[31, 32], 1, 11, []⟩ = ⟨[25, 32], 0, 8, []⟩ := by rfl
  have t46 : steps helloProg helloWorm 8 ⟨[25, 32], 0, 8, []⟩ = ⟨[21, 33], 0, 5, []⟩ := by rfl
  have t47 : steps helloProg helloWorm 8 ⟨[21, 33], 0, 5, []⟩ = ⟨[17, 34], 0, 2, []⟩ := by rfl
  have t48 : steps helloProg helloWorm 8 ⟨[17, 34], 0, 2, []⟩ = ⟨[10, 34], 1, 10, []⟩ := by rfl
  have t49 : steps helloProg helloWorm 8 ⟨[10, 34], 1, 10, []⟩ = ⟨[5, 35], 0, 7, []⟩ := by rfl
  have t50 : steps helloProg helloWorm 8 ⟨[5, 35], 0, 7, []⟩ = ⟨[1, 36], 0, 4, []⟩ := by rfl
  have t51 : steps helloProg helloWorm 8 ⟨[1, 36], 0, 4, []⟩ = ⟨[252, 37], 0, 12, []⟩ := by rfl
  have t52 : steps helloProg helloWorm 8 ⟨[252, 37], 0, 12, []⟩ = ⟨[245, 37], 0, 9, []⟩ := by rfl
  have t53 : steps helloProg helloWorm 8 ⟨[245, 37], 0, 9, []⟩ = ⟨[241, 38], 0, 6, []⟩ := by rfl
  have t54 : steps helloProg helloWorm 8 ⟨[241, 38], 0, 6, []⟩ = ⟨[237, 39], 0, 3, []⟩ := by rfl
  have t55 : steps helloProg helloWorm 8 ⟨[237, 39], 0, 3, []⟩ = ⟨[231, 40], 1, 11, []⟩ := by rfl
  have t56 : steps helloProg helloWorm 8 ⟨[231, 40], 1, 11, []⟩ = ⟨[225, 40], 0, 8, []⟩ := by rfl
  have t57 : steps helloProg helloWorm 8 ⟨[225, 40], 0, 8, []⟩ = ⟨[221, 41], 0, 5, []⟩ := by rfl
  have t58 : steps helloProg helloWorm 8 ⟨[221, 41], 0, 5, []⟩ = ⟨[217, 42], 0, 2, []⟩ := by rfl
  have t59 : steps helloProg helloWorm 8 ⟨[217, 42], 0, 2, []⟩ = ⟨[210, 42], 1, 10, []⟩ := by rfl
  have t60 : steps helloProg helloWorm 8 ⟨[210, 42], 1, 10, []⟩ = ⟨[205, 43], 0, 7, []⟩ := by rfl
  have t61 : steps helloProg helloWorm 8 ⟨[205, 43], 0, 7, []⟩ = ⟨[201, 44], 0, 4, []⟩ := by rfl
  have t62 : steps helloProg helloWorm 8 ⟨[201, 44], 0, 4, []⟩ = ⟨[196, 45], 0, 12, []⟩ := by rfl
  have t63 : steps helloProg helloWorm 8 ⟨[196, 45], 0, 12, []⟩ = ⟨[189, 45], 0, 9, []⟩ := by rfl
  have t64 : steps helloProg helloWorm 8 ⟨[189, 45], 0, 9, []⟩ = ⟨[185, 46], 0, 6, []⟩ := by rfl
  have t65 : steps helloProg helloWorm 8 ⟨[185, 46], 0, 6, []⟩ = ⟨[181, 47], 0, 3, []⟩ := by rfl
  have t66 : steps helloProg helloWorm 8 ⟨[181, 47], 0, 3, []⟩ = ⟨[175, 48], 1, 11, []⟩ := by rfl
  have t67 : steps helloProg helloWorm 8 ⟨[175, 48], 1, 11, []⟩ = ⟨[169, 48], 0, 8, []⟩ := by rfl
  have t68 : steps helloProg helloWorm 8 ⟨[169, 48], 0, 8, []⟩ = ⟨[165, 49], 0, 5, []⟩ := by rfl
  have t69 : steps helloProg helloWorm 8 ⟨[165, 49], 0, 5, []⟩ = ⟨[161, 50], 0, 2, []⟩ := by rfl
  have t70 : steps helloProg helloWorm 8 ⟨[161, 50], 0, 2, []⟩ = ⟨[154, 50], 1, 10, []⟩ := by rfl
  have t71 : steps helloProg helloWorm 8 ⟨[154, 50], 1, 10, []⟩ = ⟨[149, 51], 0, 7, []⟩ := by rfl
  have t72 : steps helloProg helloWorm 8 ⟨[149, 51], 0, 7, []⟩ = ⟨[145, 52], 0, 4, []⟩ := by rfl
  have t73 : steps helloProg helloWorm 8 ⟨[145, 52], 0, 4, []⟩ = ⟨[140, 53], 0, 12, []⟩ := by rfl
  have t74 : steps helloProg helloWorm 8 ⟨[140, 53], 0, 12, []⟩ = ⟨[133, 53], 0, 9, []⟩ := by rfl
  have t75 : steps helloProg helloWorm 8 ⟨[133, 53], 0, 9, []⟩ = ⟨[129, 54], 0, 6, []⟩ := by rfl
  have t76 : steps helloProg helloWorm 8 ⟨[129, 54], 0, 6, []⟩ = ⟨[125, 55], 0, 3, []⟩ := by rfl
  have t77 : steps helloProg helloWorm 8 ⟨[125, 55], 0, 3, []⟩ = ⟨[119, 56], 1, 11, []⟩ := by rfl
  have t78 : steps helloProg helloWorm 8 ⟨[119, 56], 1, 11, []⟩ = ⟨[113, 56], 0, 8, []⟩ := by rfl
  have t79 : steps helloProg helloWorm 8 ⟨[113, 56], 0, 8, []⟩ = ⟨[109, 57], 0, 5, []⟩ := by rfl
  have t80 : steps helloProg helloWorm 8 ⟨[109, 57], 0, 5, []⟩ = ⟨[105, 58], 0, 2, []⟩ := by rfl
  have t81 : steps helloProg helloWorm 8 ⟨[105, 58], 0, 2, []⟩ = ⟨[98, 58], 1, 10, []⟩ := by rfl
  have t82 : steps helloProg helloWorm 8 ⟨[98, 58], 1, 10, []⟩ = ⟨[93, 59], 0, 7, []⟩ := by rfl
  have t83 : steps helloProg helloWorm 8 ⟨[93, 59], 0, 7, []⟩ = ⟨[89, 60], 0, 4, []⟩ := by rfl
  have t84 : steps helloProg helloWorm 8 ⟨[89, 60], 0, 4, []⟩ = ⟨[84, 61], 0, 12, []⟩ := by rfl
  have t85 : steps helloProg helloWorm 8 ⟨[84, 61], 0, 12, []⟩ = ⟨[77, 61], 0, 9, []⟩ := by rfl
  have t86 : steps helloProg helloWorm 8 ⟨[77, 61], 0, 9, []⟩ = ⟨[73, 62], 0, 6, []⟩ := by rfl
  have t87 : steps helloProg helloWorm 8 ⟨[73, 62], 0, 6, []⟩ = ⟨[69, 63], 0, 3, []⟩ := by rfl
  have t88 : steps helloProg helloWorm 8 ⟨[69, 63], 0, 3, []⟩ = ⟨[63, 64], 1, 11, []⟩ := by rfl
  have t89 : steps helloProg helloWorm 8 ⟨[63, 64], 1, 11, []⟩ = ⟨[57, 64], 0, 8, []⟩ := by rfl
  have t90 : steps helloProg helloWorm 8 ⟨[57, 64], 0, 8, []⟩ = ⟨[53, 65], 0, 5, []⟩ := by rfl
  have t91 : steps helloProg helloWorm 8 ⟨[53, 65], 0, 5, []⟩ = ⟨[49, 66], 0, 2, []⟩ := by rfl
  have t92 : steps helloProg helloWorm 8 ⟨[49, 66], 0, 2, []⟩ = ⟨[42, 66], 1, 10, []⟩ := by rfl
  have t93 : steps helloProg helloWorm 8 ⟨[42, 66], 1, 10, []⟩ = ⟨[37, 67], 0, 7, []⟩ := by rfl
  have t94 : steps helloProg helloWorm 8 ⟨[37, 67], 0, 7, []⟩ = ⟨[33, 68], 0, 4, []⟩ := by rfl
  have t95 : steps helloProg helloWorm 8 ⟨[33, 68], 0, 4, []⟩ = ⟨[28, 69], 0, 12, []⟩ := by rfl
  have t96 : steps helloProg helloWorm 8 ⟨[28, 69], 0, 12, []⟩ = ⟨[21, 69], 0, 9, []⟩ := by rfl
  have t97 : steps helloProg helloWorm 8 ⟨[21, 69], 0, 9, []⟩ = ⟨[17, 70], 0, 6, []⟩ := by rfl
  have t98 : steps helloProg helloWorm 8 ⟨[17, 70], 0, 6, []⟩ = ⟨[13, 71], 0, 3, []⟩ := by rfl
  have t99 : steps helloProg helloWorm 8 ⟨[13, 71], 0, 3, []⟩ = ⟨[7, 72], 1, 11, []⟩ := by rfl
  have t100 : steps helloProg helloWorm 8 ⟨[7, 72], 1, 11, []⟩ = ⟨[1, 72], 0, 8, []⟩ := by rfl
  have t101 : steps helloProg helloWorm 8 ⟨[1, 72], 0, 8, []⟩ = ⟨[0, 72], 1, 16, [72]⟩ := by rfl
  have t102 : steps helloProg helloWorm 8 ⟨[0, 72], 1, 16, [72]⟩ = ⟨[0, 70, 4], 2, 24, [72]⟩ := by rfl
  have t103 : steps helloProg helloWorm 8 ⟨[0, 70, 4], 2, 24, [72]⟩ = ⟨[0, 69, 8], 2, 23, [72]⟩ := by rfl
  have t104 : steps helloProg helloWorm 8 ⟨[0, 69, 8], 2, 23, [72]⟩ = ⟨[0, 68, 12], 2, 22, [72]⟩ := by rfl
  have t105 : steps helloProg helloWorm 8 ⟨[0, 68, 12], 2, 22, [72]⟩ = ⟨[0, 67, 16], 2, 21, [72]⟩ := by rfl
  have t106 : steps helloProg helloWorm 8 ⟨[0, 67, 16], 2, 21, [72]⟩ = ⟨[0, 66, 20], 2, 20, [72]⟩ := by rfl
  have t107 : steps helloProg helloWorm 8 ⟨[0, 66, 20], 2, 20, [72]⟩ = ⟨[0, 65, 25], 1, 19, [72]⟩ := by rfl
  have t108 : steps helloProg helloWorm 8 ⟨[0, 65, 25], 1, 19, [72]⟩ = ⟨[0, 65, 30], 1, 18, [72]⟩ := by rfl
  have t109 : steps helloProg helloWorm 8 ⟨[0, 65, 30], 1, 18, [72]⟩ = ⟨[0, 64, 35], 1, 26, [72]⟩ := by rfl
  have t110 : steps helloProg helloWorm 8 ⟨[0, 64, 35], 1, 26, [72]⟩ = ⟨[0, 63, 40], 2, 25, [72]⟩ := by rfl
  have t111 : steps helloProg helloWorm 8 ⟨[0, 63, 40], 2, 25, [72]⟩ = ⟨[0, 62, 44], 2, 24, [72]⟩ := by rfl
  have t112 : steps helloProg helloWorm 8 ⟨[0, 62, 44], 2, 24, [72]⟩ = ⟨[0, 61, 48], 2, 23, [72]⟩ := by rfl
  have t113 : steps helloProg helloWorm 8 ⟨[0, 61, 48], 2, 23, [72]⟩ = ⟨[0, 60, 52], 2, 22, [72]⟩ := by rfl
  have t114 : steps helloProg helloWorm 8 ⟨[0, 60, 52], 2, 22, [72]⟩ = ⟨[0, 59, 56], 2, 21, [72]⟩ := by rfl
  have t115 : steps helloProg helloWorm 8 ⟨[0, 59, 56], 2, 21, [72]⟩ = ⟨[0, 58, 60], 2, 20, [72]⟩ := by rfl
  have t116 : steps helloProg helloWorm 8 ⟨[0, 58, 60], 2, 20, [72]⟩ = ⟨[0, 57, 65], 1, 19, [72]⟩ := by rfl
  have t117 : steps helloProg helloWorm 8 ⟨[0, 57, 65], 1, 19, [72]⟩ = ⟨[0, 57, 70], 1, 18, [72]⟩ := by rfl
  have t118 : steps helloProg helloWorm 8 ⟨[0, 57, 70], 1, 18, [72]⟩ = ⟨[0, 56, 75], 1, 26, [72]⟩ := by rfl
  have t119 : steps helloProg helloWorm 8 ⟨[0, 56, 75], 1, 26, [72]⟩ = ⟨[0, 55, 80], 2, 25, [72]⟩ := by rfl
  have t120 : steps helloProg helloWorm 8 ⟨[0, 55, 80], 2, 25, [72]⟩ = ⟨[0, 54, 84], 2, 24, [72]⟩ := by rfl
  have t121 : steps helloProg helloWorm 8 ⟨[0, 54, 84], 2, 24, [72]⟩ = ⟨[0, 53, 88], 2, 23, [72]⟩ := by rfl
  have t122 : steps helloProg helloWorm 8 ⟨[0, 53, 88], 2, 23, [72]⟩ = ⟨[0, 52, 92], 2, 22, [72]⟩ := by rfl
  have t123 : steps helloProg helloWorm 8 ⟨[0, 52, 92], 2, 22, [72]⟩ = ⟨[0, 51, 96], 2, 21, [72]⟩ := by rfl
  have t124 : steps helloProg helloWorm 8 ⟨[0, 51, 96], 2, 21, [72]⟩ = ⟨[0, 50, 100], 2, 20, [72]⟩ := by rfl
  have t125 : steps helloProg helloWorm 8 ⟨[0, 50, 100], 2, 20, [72]⟩ = ⟨[0, 49, 105], 1, 19, [72]⟩ := by rfl
  have t126 : steps helloProg helloWorm 8 ⟨[0, 49, 105], 1, 19, [72]⟩ = ⟨[0, 49, 110], 1, 18, [72]⟩ := by rfl
  have t127 : steps helloProg helloWorm 8 ⟨[0, 49, 110], 1, 18, [72]⟩ = ⟨[0, 48, 115], 1, 26, [72]⟩ := by rfl
  have t128 : steps helloProg helloWorm 8 ⟨[0, 48, 115], 1, 26, [72]⟩ = ⟨[0, 47, 120], 2, 25, [72]⟩ := by rfl
  have t129 : steps helloProg helloWorm 8 ⟨[0, 47, 120], 2, 25, [72]⟩ = ⟨[0, 46, 124], 2, 24, [72]⟩ := by rfl
  have t130 : steps helloProg helloWorm 8 ⟨[0, 46, 124], 2, 24, [72]⟩ = ⟨[0, 45, 128], 2, 23, [72]⟩ := by rfl
  have t131 : steps helloProg helloWorm 8 ⟨[0, 45, 128], 2, 23, [72]⟩ = ⟨[0, 44, 132], 2, 22, [72]⟩ := by rfl
  have t132 : steps helloProg helloWorm 8 ⟨[0, 44, 132], 2, 22, [72]⟩ = ⟨[0, 43, 136], 2, 21, [72]⟩ := by rfl
  have t133 : steps helloProg helloWorm 8 ⟨[0, 43, 136], 2, 21, [72]⟩ = ⟨[0, 42, 140], 2, 20, [72]⟩ := by rfl
  have t134 : steps helloProg helloWorm 8 ⟨[0, 42, 140], 2, 20, [72]⟩ = ⟨[0, 41, 145], 1, 19, [72]⟩ := by rfl
  have t135 : steps helloProg helloWorm 8 ⟨[0, 41, 145], 1, 19, [72]⟩ = ⟨[0, 41, 150], 1, 18, [72]⟩ := by rfl
  have t136 : steps helloProg helloWorm 8 ⟨[0, 41, 150], 1, 18, [72]⟩ = ⟨[0, 40, 155], 1, 26, [72]⟩ := by rfl
  have t137 : steps helloProg helloWorm 8 ⟨[0, 40, 155], 1, 26, [72]⟩ = ⟨[0, 39, 160], 2, 25, [72]⟩ := by rfl
  have t138 : steps helloProg helloWorm 8 ⟨[0, 39, 160], 2, 25, [72]⟩ = ⟨[0, 38, 164], 2, 24, [72]⟩ := by rfl
  have t139 : steps helloProg helloWorm 8 ⟨[0, 38, 164], 2, 24, [72]⟩ = ⟨[0, 37, 168], 2, 23, [72]⟩ := by rfl
  have t140 : steps helloProg helloWorm 8 ⟨[0, 37, 168], 2, 23, [72]⟩ = ⟨[0, 36, 172], 2, 22, [72]⟩ := by rfl
  have t141 : steps helloProg helloWorm 8 ⟨[0, 36, 172], 2, 22, [72]⟩ = ⟨[0, 35, 176], 2, 21, [72]⟩ := by rfl
  have t142 : steps helloProg helloWorm 8 ⟨[0, 35, 176], 2, 21, [72]⟩ = ⟨[0, 34, 180], 2, 20, [72]⟩ := by rfl
  have t143 : steps helloProg helloWorm 8 ⟨[0, 34, 180], 2, 20, [72]⟩ = ⟨[0, 33, 185], 1, 19, [72]⟩ := by rfl
  have t144 : steps helloProg helloWorm 8 ⟨[0, 33, 185], 1, 19, [72]⟩ = ⟨[0, 33, 190], 1, 18, [72]⟩ := by rfl
  have t145 : steps helloProg helloWorm 8 ⟨[0, 33, 190], 1, 18, [72]⟩ = ⟨[0, 32, 195], 1, 26, [72]⟩ := by rfl
  have t146 : steps helloProg helloWorm 8 ⟨[0, 32, 195], 1, 26, [72]⟩ = ⟨[0, 31, 200], 2, 25, [72]⟩ := by rfl
  have t147 : steps helloProg helloWorm 8 ⟨[0, 31, 200], 2, 25, [72]⟩ = ⟨[0, 30, 204], 2, 24, [72]⟩ := by rfl
  have t148 : steps helloProg helloWorm 8 ⟨[0, 30, 204], 2, 24, [72]⟩ = ⟨[0, 29, 208], 2, 23, [72]⟩ := by rfl
  have t149 : steps helloProg helloWorm 8 ⟨[0, 29, 208], 2, 23, [72]⟩ = ⟨[0, 28, 212], 2, 22, [72]⟩ := by rfl
  have t150 : steps helloProg helloWorm 8 ⟨[0, 28, 212], 2, 22, [72]⟩ = ⟨[0, 27, 216], 2, 21, [72]⟩ := by rfl
  have t151 : steps helloProg helloWorm 8 ⟨[0, 27, 216], 2, 21, [72]⟩ = ⟨[0, 26, 220], 2, 20, [72]⟩ := by rfl
  have t152 : steps helloProg helloWorm 8 ⟨[0, 26, 220], 2, 20, [72]⟩ = ⟨[0, 25, 225], 1, 19, [72]⟩ := by rfl
  have t153 : steps helloProg helloWorm 8 ⟨[0, 25, 225], 1, 19, [72]⟩ = ⟨[0, 25, 230], 1, 18, [72]⟩ := by rfl
  have t154 : steps helloProg helloWorm 8 ⟨[0, 25, 230], 1, 18, [72]⟩ = ⟨[0, 24, 235], 1, 26, [72]⟩ := by rfl
  have t155 : steps helloProg helloWorm 8 ⟨[0, 24, 235], 1, 26, [72]⟩ = ⟨[0, 23, 240], 2, 25, [72]⟩ := by rfl
  have t156 : steps helloProg helloWorm 8 ⟨[0, 23, 240], 2, 25, [72]⟩ = ⟨[0, 22, 244], 2, 24, [72]⟩ := by rfl
  have t157 : steps helloProg helloWorm 8 ⟨[0, 22, 244], 2, 24, [72]⟩ = ⟨[0, 21, 248], 2, 23, [72]⟩ := by rfl
  have t158 : steps helloProg helloWorm 8 ⟨[0, 21, 248], 2, 23, [72]⟩ = ⟨[0, 20, 252], 2, 22, [72]⟩ := by rfl
  have t159 : steps helloProg helloWorm 8 ⟨[0, 20, 252], 2, 22, [72]⟩ = ⟨[0, 19, 0], 2, 21, [72]⟩ := by rfl
  have t160 : steps helloProg helloWorm 8 ⟨[0, 19, 0], 2, 21, [72]⟩ = ⟨[0, 18, 4], 2, 20, [72]⟩ := by rfl
  have t161 : steps helloProg helloWorm 8 ⟨[0, 18, 4], 2, 20, [72]⟩ = ⟨[0, 17, 9], 1, 19, [72]⟩ := by rfl
  have t162 : steps helloProg helloWorm 8 ⟨[0, 17, 9], 1, 19, [72]⟩ = ⟨[0, 17, 14], 1, 18, [72]⟩ := by rfl
  have t163 : steps helloProg helloWorm 8 ⟨[0, 17, 14], 1, 18, [72]⟩ = ⟨[0, 16, 19], 1, 26, [72]⟩ := by rfl
  have t164 : steps helloProg helloWorm 8 ⟨[0, 16, 19], 1, 26, [72]⟩ = ⟨[0, 15, 24], 2, 25, [72]⟩ := by rfl
  have t165 : steps helloProg helloWorm 8 ⟨[0, 15, 24], 2, 25, [72]⟩ = ⟨[0, 14, 28], 2, 24, [72]⟩ := by rfl
  have t166 : steps helloProg helloWorm 8 ⟨[0, 14, 28], 2, 24, [72]⟩ = ⟨[0, 13, 32], 2, 23, [72]⟩ := by rfl
  have t167 : steps helloProg helloWorm 8 ⟨[0, 13, 32], 2, 23, [72]⟩ = ⟨[0, 12, 36], 2, 22, [72]⟩ := by rfl
  have t168 : steps helloProg helloWorm 8 ⟨[0, 12, 36], 2, 22, [72]⟩ = ⟨[0, 11, 40], 2, 21, [72]⟩ := by rfl
  have t169 : steps helloProg helloWorm 8 ⟨[0, 11, 40], 2, 21, [72]⟩ = ⟨[0, 10, 44], 2, 20, [72]⟩ := by rfl
  have t170 : steps helloProg helloWorm 8 ⟨[0, 10, 44], 2, 20, [72]⟩ = ⟨[0, 9, 49], 1, 19, [72]⟩ := by rfl
  have t171 : steps helloProg helloWorm 8 ⟨[0, 9, 49], 1, 19, [72]⟩ = ⟨[0, 9, 54], 1, 18, [72]⟩ := by rfl
  have t172 : steps helloProg helloWorm 8 ⟨[0, 9, 54], 1, 18, [72]⟩ = ⟨[0, 8, 59], 1, 26, [72]⟩ := by rfl
  have t173 : steps helloProg helloWorm 8 ⟨[0, 8, 59], 1, 26, [72]⟩ = ⟨[0, 7, 64], 2, 25, [72]⟩ := by rfl
  have t174 : steps helloProg helloWorm 8 ⟨[0, 7, 64], 2, 25, [72]⟩ = ⟨[0, 6, 68], 2, 24, [72]⟩ := by rfl
  have t175 : steps helloProg helloWorm 8 ⟨[0, 6, 68], 2, 24, [72]⟩ = ⟨[0, 5, 72], 2, 23, [72]⟩ := by rfl
  have t176 : steps helloProg helloWorm 8 ⟨[0, 5, 72], 2, 23, [72]⟩ = ⟨[0, 4, 76], 2, 22, [72]⟩ := by rfl
  have t177 : steps helloProg helloWorm 8 ⟨[0, 4, 76], 2, 22, [72]⟩ = ⟨[0, 3, 80], 2, 21, [72]⟩ := by rfl
  have t178 : steps helloProg helloWorm 8 ⟨[0, 3, 80], 2, 21, [72]⟩ = ⟨[0, 2, 84], 2, 20, [72]⟩ := by rfl
  have t179 : steps helloProg helloWorm 8 ⟨[0, 2, 84], 2, 20, [72]⟩ = ⟨[0, 1, 89], 1, 19, [72]⟩ := by rfl
  have t180 : steps helloProg helloWorm 8 ⟨[0, 1, 89], 1, 19, [72]⟩ = ⟨[0, 1, 94], 1, 18, [72]⟩ := by rfl
  have t181 : steps helloProg helloWorm 8 ⟨[0, 1, 94], 1, 18, [72]⟩ = ⟨[0, 0, 99], 1, 26, [72]⟩ := by rfl
  have t182 : steps helloProg helloWorm 8 ⟨[0, 0, 99], 1, 26, [72]⟩ = ⟨[0, 0, 104], 2, 34, [72, 101]⟩ := by rfl
  have t183 : steps helloProg helloWorm 8 ⟨[0, 0, 104], 2, 34, [72, 101]⟩ = ⟨[0, 0, 110], 2, 42, [72, 101, 108, 108]⟩ := by rfl
  have t184 : steps helloProg helloWorm 8 ⟨[0, 0, 110], 2, 42, [72, 101, 108, 108]⟩ = ⟨[0, 0, 111], 2, 44, [72, 101, 108, 108, 111]⟩ := by rfl
  have u1 : steps helloProg helloWorm 8 initState = ⟨[249], 0, 8, []⟩ := t1
  have u2 : steps helloProg helloWorm 16 initState = ⟨[245, 1], 0, 5, []⟩ := by
    rw [show (16 : Nat) = 8 + 8 from rfl, steps_add, u1]; exact t2
  have u3 : steps helloProg helloWorm 24 initState = ⟨[241, 2], 0, 2, []⟩ := by
    rw [show (24 : Nat) = 16 + 8 from rfl, steps_add, u2]; exact t3
  have u4 : steps helloProg helloWorm 32 initState = ⟨[234, 2], 1, 10, []⟩ := by
    rw [show (32 : Nat) = 24 + 8 from rfl, steps_add, u3]; exact t4
  have u5 : steps helloProg helloWorm 40 initState = ⟨[229, 3], 0, 7, []⟩ := by
    rw [show (40 : Nat) = 32 + 8 from rfl, steps_add, u4]; exact t5
  have u6 : steps helloProg helloWorm 48 initState = ⟨[225, 4], 0, 4, []⟩ := by
    rw [show (48 : Nat) = 40 + 8 from rfl, steps_add, u5]; exact t6
  have u7 : steps helloProg helloWorm 56 initState = ⟨[220, 5], 0, 12, []⟩ := by
    rw [show (56 : Nat) = 48 + 8 from rfl, steps_add, u6]; exact t7
  have u8 : steps helloProg helloWorm 64 initState = ⟨[213, 5], 0, 9, []⟩ := by
    rw [show (64 : Nat) = 56 + 8 from rfl, steps_add, u7]; exact t8
  have u9 : steps helloProg helloWorm 72 initState = ⟨[209, 6], 0, 6, []⟩ := by
    rw [show (72 : Nat) = 64 + 8 from rfl, steps_add, u8]; exact t9
  have u10 : steps helloProg helloWorm 80 initState = ⟨[205, 7], 0, 3, []⟩ := by
    rw [show (80 : Nat) = 72 + 8 from rfl, steps_add, u9]; exact t10
  have u11 : steps helloProg helloWorm 88 initState = ⟨[199, 8], 1, 11, []⟩ := by
    rw [show (88 : Nat) = 80 + 8 from rfl, steps_add, u10]; exact t11
  have u12 : steps helloProg helloWorm 96 initState = ⟨[193, 8], 0, 8, []⟩ := by
    rw [show (96 : Nat) = 88 + 8 from rfl, steps_add, u11]; exact t12
  have u13 : steps helloProg helloWorm 104 initState = ⟨[189, 9], 0, 5, []⟩ := by
    rw [show (104 : Nat) = 96 + 8 from rfl, steps_add, u12]; exact t13
  have u14 : steps helloProg helloWorm 112 initState = ⟨[185, 10], 0, 2, []⟩ := by
    rw [show (112 : Nat) = 104 + 8 from rfl, steps_add, u13]; exact t14
  have u15 : steps helloProg helloWorm 120 initState = ⟨[178, 10], 1, 10, []⟩ := by
    rw [show (120 : Nat) = 112 + 8 from rfl, steps_add, u14]; exact t15
  have u16 : steps helloProg helloWorm 128 initState = ⟨[173, 11], 0, 7, []⟩ := by
    rw [show (128 : Nat) = 120 + 8 from rfl, steps_add, u15]; exact t16
  have u17 : steps helloProg helloWorm 136 initState = ⟨[169, 12], 0, 4, []⟩ := by
    rw [show (136 : Nat) = 128 + 8 from rfl, steps_add, u16]; exact t17
  have u18 : steps helloProg helloWorm 144 initState = ⟨[164, 13], 0, 12, []⟩ := by
    rw [show (144 : Nat) = 136 + 8 from rfl, steps_add, u17]; exact t18
  have u19 : steps helloProg helloWorm 152 initState = ⟨[157, 13], 0, 9, []⟩ := by
    rw [show (152 : Nat) = 144 + 8 from rfl, steps_add, u18]; exact t19
  have u20 : steps helloProg helloWorm 160 initState = ⟨[153, 14], 0, 6, []⟩ := by
    rw [show (160 : Nat) = 152 + 8 from rfl, steps_add, u19]; exact t20
  have u21 : steps helloProg helloWorm 168 initState = ⟨[149, 15], 0, 3, []⟩ := by
    rw [show (168 : Nat) = 160 + 8 from rfl, steps_add, u20]; exact t21
  have u22 : steps helloProg helloWorm 176 initState = ⟨[143, 16], 1, 11, []⟩ := by
    rw [show (176 : Nat) = 168 + 8 from rfl, steps_add, u21]; exact t22
  have u23 : steps helloProg helloWorm 184 initState = ⟨[137, 16], 0, 8, []⟩ := by
    rw [show (184 : Nat) = 176 + 8 from rfl, steps_add, u22]; exact t23
  have u24 : steps helloProg helloWorm 192 initState = ⟨[133, 17], 0, 5, []⟩ := by
    rw [show (192 : Nat) = 184 + 8 from rfl, steps_add, u23]; exact t24
  have u25 : steps helloProg helloWorm 200 initState = ⟨[129, 18], 0, 2, []⟩ := by
    rw [show (200 : Nat) = 192 + 8 from rfl, steps_add, u24]; exact t25
  have u26 : steps helloProg helloWorm 208 initState = ⟨[122, 18], 1, 10, []⟩ := by
    rw [show (208 : Nat) = 200 + 8 from rfl, steps_add, u25]; exact t26
  have u27 : steps helloProg helloWorm 216 initState = ⟨[117, 19], 0, 7, []⟩ := by
    rw [show (216 : Nat) = 208 + 8 from rfl, steps_add, u26]; exact t27
  have u28 : steps helloProg helloWorm 224 initState = ⟨[113, 20], 0, 4, []⟩ := by
    rw [show (224 : Nat) = 216 + 8 from rfl, steps_add, u27]; exact t28
  have u29 : steps helloProg helloWorm 232 initState = ⟨[108, 21], 0, 12, []⟩ := by
    rw [show (232 : Nat) = 224 + 8 from rfl, steps_add, u28]; exact t29
  have u30 : steps helloProg helloWorm 240 initState = ⟨[101, 21], 0, 9, []⟩ := by
    rw [show (240 : Nat) = 232 + 8 from rfl, steps_add, u29]; exact t30
  have u31 : steps helloProg helloWorm 248 initState = ⟨[97, 22], 0, 6, []⟩ := by
    rw [show (248 : Nat) = 240 + 8 from rfl, steps_add, u30]; exact t31
  have u32 : steps helloProg helloWorm 256 initState = ⟨[93, 23], 0, 3, []⟩ := by
    rw [show (256 : Nat) = 248 + 8 from rfl, steps_add, u31]; exact t32
  have u33 : steps helloProg helloWorm 264 initState = ⟨[87, 24], 1, 11, []⟩ := by
    rw [show (264 : Nat) = 256 + 8 from rfl, steps_add, u32]; exact t33
  have u34 : steps helloProg helloWorm 272 initState = ⟨[81, 24], 0, 8, []⟩ := by
    rw [show (272 : Nat) = 264 + 8 from rfl, steps_add, u33]; exact t34
  have u35 : steps helloProg helloWorm 280 initState = ⟨[77, 25], 0, 5, []⟩ := by
    rw [show (280 : Nat) = 272 + 8 from rfl, steps_add, u34]; exact t35
  have u36 : steps helloProg helloWorm 288 initState = ⟨[73, 26], 0, 2, []⟩ := by
    rw [show (288 : Nat) = 280 + 8 from rfl, steps_add, u35]; exact t36
  have u37 : steps helloProg helloWorm 296 initState = ⟨[66, 26], 1, 10, []⟩ := by
    rw [show (296 : Nat) = 288 + 8 from rfl, steps_add, u36]; exact t37
  have u38 : steps helloProg helloWorm 304 initState = ⟨[61, 27], 0, 7, []⟩ := by
    rw [show (304 : Nat) = 296 + 8 from rfl, steps_add, u37]; exact t38
  have u39 : steps helloProg helloWorm 312 initState = ⟨[57, 28], 0, 4, []⟩ := by
    rw [show (312 : Nat) = 304 + 8 from rfl, steps_add, u38]; exact t39
  have u40 : steps helloProg helloWorm 320 initState = ⟨[52, 29], 0, 12, []⟩ := by
    rw [show (320 : Nat) = 312 + 8 from rfl, steps_add, u39]; exact t40
  have u41 : steps helloProg helloWorm 328 initState = ⟨[45, 29], 0, 9, []⟩ := by
    rw [show (328 : Nat) = 320 + 8 from rfl, steps_add, u40]; exact t41
  have u42 : steps helloProg helloWorm 336 initState = ⟨[41, 30], 0, 6, []⟩ := by
    rw [show (336 : Nat) = 328 + 8 from rfl, steps_add, u41]; exact t42
  have u43 : steps helloProg helloWorm 344 initState = ⟨[37, 31], 0, 3, []⟩ := by
    rw [show (344 : Nat) = 336 + 8 from rfl, steps_add, u42]; exact t43
  have u44 : steps helloProg helloWorm 352 initState = ⟨[31, 32], 1, 11, []⟩ := by
    rw [show (352 : Nat) = 344 + 8 from rfl, steps_add, u43]; exact t44
  have u45 : steps helloProg helloWorm 360 initState = ⟨[25, 32], 0, 8, []⟩ := by
    rw [show (360 : Nat) = 352 + 8 from rfl, steps_add, u44]; exact t45
  have u46 : steps helloProg helloWorm 368 initState = ⟨[21, 33], 0, 5, []⟩ := by
    rw [show (368 : Nat) = 360 + 8 from rfl, steps_add, u45]; exact t46
  have u47 : steps helloProg helloWorm 376 initState = ⟨[17, 34], 0, 2, []⟩ := by
    rw [show (376 : Nat) = 368 + 8 from rfl, steps_add, u46]; exact t47
  have u48 : steps helloProg helloWorm 384 initState = ⟨[10, 34], 1, 10, []⟩ := by
    rw [show (384 : Nat) = 376 + 8 from rfl, steps_add, u47]; exact t48
  have u49 : steps helloProg helloWorm 392 initState = ⟨[5, 35], 0, 7, []⟩ := by
    rw [show (392 : Nat) = 384 + 8 from rfl, steps_add, u48]; exact t49
  have u50 : steps helloProg helloWorm 400 initState = ⟨[1, 36], 0, 4, []⟩ := by
    rw [show (400 : Nat) = 392 + 8 from rfl, steps_add, u49]; exact t50
  have u51 : steps helloProg helloWorm 408 initState = ⟨[252, 37], 0, 12, []⟩ := by
    rw [show (408 : Nat) = 400 + 8 from rfl, steps_add, u50]; exact t51
  have u52 : steps helloProg helloWorm 416 initState = ⟨[245, 37], 0, 9, []⟩ := by
    rw [show (416 : Nat) = 408 + 8 from rfl, steps_add, u51]; exact t52
  have u53 : steps helloProg helloWorm 424 initState = ⟨[241, 38], 0, 6, []⟩ := by
    rw [show (424 : Nat) = 416 + 8 from rfl, steps_add, u52]; exact t53
  have u54 : steps helloProg helloWorm 432 initState = ⟨[237, 39], 0, 3, []⟩ := by
    rw [show (432 : Nat) = 424 + 8 from rfl, steps_add, u53]; exact t54
  have u55 : steps helloProg helloWorm 440 initState = ⟨[231, 40], 1, 11, []⟩ := by
    rw [show (440 : Nat) = 432 + 8 from rfl, steps_add, u54]; exact t55
  have u56 : steps helloProg helloWorm 448 initState = ⟨[225, 40], 0, 8, []⟩ := by
    rw [show (448 : Nat) = 440 + 8 from rfl, steps_add, u55]; exact t56
  have u57 : steps helloProg helloWorm 456 initState = ⟨[221, 41], 0, 5, []⟩ := by
    rw [show (456 : Nat) = 448 + 8 from rfl, steps_add, u56]; exact t57
  have u58 : steps helloProg helloWorm 464 initState = ⟨[217, 42], 0, 2, []⟩ := by
    rw [show (464 : Nat) = 456 + 8 from rfl, steps_add, u57]; exact t58
  have u59 : steps helloProg helloWorm 472 initState = ⟨[210, 42], 1, 10, []⟩ := by
    rw [show (472 : Nat) = 464 + 8 from rfl, steps_add, u58]; exact t59
  have u60 : steps helloProg helloWorm 480 initState = ⟨[205, 43], 0, 7, []⟩ := by
    rw [show (480 : Nat) = 472 + 8 from rfl, steps_add, u59]; exact t60
  have u61 : steps helloProg helloWorm 488 initState = ⟨[201, 44], 0, 4, []⟩ := by
    rw [show (488 : Nat) = 480 + 8 from rfl, steps_add, u60]; exact t61
  have u62 : steps helloProg helloWorm 496 initState = ⟨[196, 45], 0, 12, []⟩ := by
    rw [show (496 : Nat) = 488 + 8 from rfl, steps_add, u61]; exact t62
  have u63 : steps helloProg helloWorm 504 initState = ⟨[189, 45], 0, 9, []⟩ := by
    rw [show (504 : Nat) = 496 + 8 from rfl, steps_add, u62]; exact t63
  have u64 : steps helloProg helloWorm 512 initState = ⟨[185, 46], 0, 6, []⟩ := by
    rw [show (512 : Nat) = 504 + 8 from rfl, steps_add, u63]; exact t64
  have u65 : steps helloProg helloWorm 520 initState = ⟨[181, 47], 0, 3, []⟩ := by
    rw [show (520 : Nat) = 512 + 8 from rfl, steps_add, u64]; exact t65
  have u66 : steps helloProg helloWorm 528 initState = ⟨[175, 48], 1, 11, []⟩ := by
    rw [show (528 : Nat) = 520 + 8 from rfl, steps_add, u65]; exact t66
  have u67 : steps helloProg helloWorm 536 initState = ⟨[169, 48], 0, 8, []⟩ := by
    rw [show (536 : Nat) = 528 + 8 from rfl, steps_add, u66]; exact t67
  have u68 : steps helloProg helloWorm 544 initState = ⟨[165, 49], 0, 5, []⟩ := by
    rw [show (544 : Nat) = 536 + 8 from rfl, steps_add, u67]; exact t68
  have u69 : steps helloProg helloWorm 552 initState = ⟨[161, 50], 0, 2, []⟩ := by
    rw [show (552 : Nat) = 544 + 8 from rfl, steps_add, u68]; exact t69
  have u70 : steps helloProg helloWorm 560 initState = ⟨[154, 50], 1, 10, []⟩ := by
    rw [show (560 : Nat) = 552 + 8 from rfl, steps_add, u69]; exact t70
  have u71 : steps helloProg helloWorm 568 initState = ⟨[149, 51], 0, 7, []⟩ := by
    rw [show (568 : Nat) = 560 + 8 from rfl, steps_add, u70]; exact t71
  have u72 : steps helloProg helloWorm 576 initState = ⟨[145, 52], 0, 4, []⟩ := by
    rw [show (576 : Nat) = 568 + 8 from rfl, steps_add, u71]; exact t72
  have u73 : steps helloProg helloWorm 584 initState = ⟨[140, 53], 0, 12, []⟩ := by
    rw [show (584 : Nat) = 576 + 8 from rfl, steps_add, u72]; exact t73
  have u74 : steps helloProg helloWorm 592 initState = ⟨[133, 53], 0, 9, []⟩ := by
    rw [show (592 : Nat) = 584 + 8 from rfl, steps_add, u73]; exact t74
  have u75 : steps helloProg helloWorm 600 initState = ⟨[129, 54], 0, 6, []⟩ := by
    rw [show (600 : Nat) = 592 + 8 from rfl, steps_add, u74]; exact t75
  have u76 : steps helloProg helloWorm 608 initState = ⟨[125, 55], 0, 3, []⟩ := by
    rw [show (608 : Nat) = 600 + 8 from rfl, steps_add, u75]; exact t76
  have u77 : steps helloProg helloWorm 616 initState = ⟨[119, 56], 1, 11, []⟩ := by
    rw [show (616 : Nat) = 608 + 8 from rfl, steps_add, u76]; exact t77
  have u78 : steps helloProg helloWorm 624 initState = ⟨[113, 56], 0, 8, []⟩ := by
    rw [show (624 : Nat) = 616 + 8 from rfl, steps_add, u77]; exact t78
  have u79 : steps helloProg helloWorm 632 initState = ⟨[109, 57], 0, 5, []⟩ := by
    rw [show (632 : Nat) = 624 + 8 from rfl, steps_add, u78]; exact t79
  have u80 : steps helloProg helloWorm 640 initState = ⟨[105, 58], 0, 2, []⟩ := by
    rw [show (640 : Nat) = 632 + 8 from rfl, steps_add, u79]; exact t80
  have u81 : steps helloProg helloWorm 648 initState = ⟨[98, 58], 1, 10, []⟩ := by
    rw [show (648 : Nat) = 640 + 8 from rfl, steps_add, u80]; exact t81
  have u82 : steps helloProg helloWorm 656 initState = ⟨[93, 59], 0, 7, []⟩ := by
    rw [show (656 : Nat) = 648 + 8 from rfl, steps_add, u81]; exact t82
  have u83 : steps helloProg helloWorm 664 initState = ⟨[89, 60], 0, 4, []⟩ := by
    rw [show (664 : Nat) = 656 + 8 from rfl, steps_add, u82]; exact t83
  have u84 : steps helloProg helloWorm 672 initState = ⟨[84, 61], 0, 12, []⟩ := by
    rw [show (672 : Nat) = 664 + 8 from rfl, steps_add, u83]; exact t84
  have u85 : steps helloProg helloWorm 680 initState = ⟨[77, 61], 0, 9, []⟩ := by
    rw [show (680 : Nat) = 672 + 8 from rfl, steps_add, u84]; exact t85
  have u86 : steps helloProg helloWorm 688 initState = ⟨[73, 62], 0, 6, []⟩ := by
    rw [show (688 : Nat) = 680 + 8 from rfl, steps_add, u85]; exact t86
  have u87 : steps helloProg helloWorm 696 initState = ⟨[69, 63], 0, 3, []⟩ := by
    rw [show (696 : Nat) = 688 + 8 from rfl, steps_add, u86]; exact t87
  have u88 : steps helloProg helloWorm 704 initState = ⟨[63, 64], 1, 11, []⟩ := by
    rw [show (704 : Nat) = 696 + 8 from rfl, steps_add, u87]; exact t88
  have u89 : steps helloProg helloWorm 712 initState = ⟨[57, 64], 0, 8, []⟩ := by
    rw [show (712 : Nat) = 704 + 8 from rfl, steps_add, u88]; exact t89
  have u90 : steps helloProg helloWorm 720 initState = ⟨[53, 65], 0, 5, []⟩ := by
    rw [show (720 : Nat) = 712 + 8 from rfl, steps_add, u89]; exact t90
  have u91 : steps helloProg helloWorm 728 initState = ⟨[49, 66], 0, 2, []⟩ := by
    rw [show (728 : Nat) = 720 + 8 from rfl, steps_add, u90]; exact t91
  have u92 : steps helloProg helloWorm 736 initState = ⟨[42, 66], 1, 10, []⟩ := by
    rw [show (736 : Nat) = 728 + 8 from rfl, steps_add, u91]; exact t92
  have u93 : steps helloProg helloWorm 744 initState = ⟨[37, 67], 0, 7, []⟩ := by
    rw [show (744 : Nat) = 736 + 8 from rfl, steps_add, u92]; exact t93
  have u94 : steps helloProg helloWorm 752 initState = ⟨[33, 68], 0, 4, []⟩ := by
    rw [show (752 : Nat) = 744 + 8 from rfl, steps_add, u93]; exact t94
  have u95 : steps helloProg helloWorm 760 initState = ⟨[28, 69], 0, 12, []⟩ := by
    rw [show (760 : Nat) = 752 + 8 from rfl, steps_add, u94]; exact t95
  have u96 : steps helloProg helloWorm 768 initState = ⟨[21, 69], 0, 9, []⟩ := by
    rw [show (768 : Nat) = 760 + 8 from rfl, steps_add, u95]; exact t96
  have u97 : steps helloProg helloWorm 776 initState = ⟨[17, 70], 0, 6, []⟩ := by
    rw [show (776 : Nat) = 768 + 8 from rfl, steps_add, u96]; exact t97
  have u98 : steps helloProg helloWorm 784 initState = ⟨[13, 71], 0, 3, []⟩ := by
    rw [show (784 : Nat) = 776 + 8 from rfl, steps_add, u97]; exact t98
  have u99 : steps helloProg helloWorm 792 initState = ⟨[7, 72], 1, 11, []⟩ := by
    rw [show (792 : Nat) = 784 + 8 from rfl, steps_add, u98]; exact t99
  have u100 : steps helloProg helloWorm 800 initState = ⟨[1, 72], 0, 8, []⟩ := by
    rw [show (800 : Nat) = 792 + 8 from rfl, steps_add, u99]; exact t100
  have u101 : steps helloProg helloWorm 808 initState = ⟨[0, 72], 1, 16, [72]⟩ := by
    rw [show (808 : Nat) = 800 + 8 from rfl, steps_add, u100]; exact t101
  have u102 : steps helloProg helloWorm 816 initState = ⟨[0, 70, 4], 2, 24, [72]⟩ := by
    rw [show (816 : Nat) = 808 + 8 from rfl, steps_add, u101]; exact t102
  have u103 : steps helloProg helloWorm 824 initState = ⟨[0, 69, 8], 2, 23, [72]⟩ := by
    rw [show (824 : Nat) = 816 + 8 from rfl, steps_add, u102]; exact t103
  have u104 : steps helloProg helloWorm 832 initState = ⟨[0, 68, 12], 2, 22, [72]⟩ := by
    rw [show (832 : Nat) = 824 + 8 from rfl, steps_add, u103]; exact t104
  have u105 : steps helloProg helloWorm 840 initState = ⟨[0, 67, 16], 2, 21, [72]⟩ := by
    rw [show (840 : Nat) = 832 + 8 from rfl, steps_add, u104]; exact t105
  have u106 : steps helloProg helloWorm 848 initState = ⟨[0, 66, 20], 2, 20, [72]⟩ := by
    rw [show (848 : Nat) = 840 + 8 from rfl, steps_add, u105]; exact t106
  have u107 : steps helloProg helloWorm 856 initState = ⟨[0, 65, 25], 1, 19, [72]⟩ := by
    rw [show (856 : Nat) = 848 + 8 from rfl, steps_add, u106]; exact t107
  have u108 : steps helloProg helloWorm 864 initState = ⟨[0, 65, 30], 1, 18, [72]⟩ := by
    rw [show (864 : Nat) = 856 + 8 from rfl, steps_add, u107]; exact t108
  have u109 : steps helloProg helloWorm 872 initState = ⟨[0, 64, 35], 1, 26, [72]⟩ := by
    rw [show (872 : Nat) = 864 + 8 from rfl, steps_add, u108]; exact t109
  have u110 : steps helloProg helloWorm 880 initState = ⟨[0, 63, 40], 2, 25, [72]⟩ := by
    rw [show (880 : Nat) = 872 + 8 from rfl, steps_add, u109]; exact t110
  have u111 : steps helloProg helloWorm 888 initState = ⟨[0, 62, 44], 2, 24, [72]⟩ := by
    rw [show (888 : Nat) = 880 + 8 from rfl, steps_add, u110]; exact t111
  have u112 : steps helloProg helloWorm 896 initState = ⟨[0, 61, 48], 2, 23, [72]⟩ := by
    rw [show (896 : Nat) = 888 + 8 from rfl, steps_add, u111]; exact t112
  have u113 : steps helloProg helloWorm 904 initState = ⟨[0, 60, 52], 2, 22, [72]⟩ := by
    rw [show (904 : Nat) = 896 + 8 from rfl, steps_add, u112]; exact t113
  have u114 : steps helloProg helloWorm 912 initState = ⟨[0, 59, 56], 2, 21, [72]⟩ := by
    rw [show (912 : Nat) = 904 + 8 from rfl, steps_add, u113]; exact t114
  have u115 : steps helloProg helloWorm 920 initState = ⟨[0, 58, 60], 2, 20, [72]⟩ := by
    rw [show (920 : Nat) = 912 + 8 from rfl, steps_add, u114]; exact t115
  have u116 : steps helloProg helloWorm 928 initState = ⟨[0, 57, 65], 1, 19, [72]⟩ := by
    rw [show (928 : Nat) = 920 + 8 from rfl, steps_add, u115]; exact t116
  have u117 : steps helloProg helloWorm 936 initState = ⟨[0, 57, 70], 1, 18, [72]⟩ := by
    rw [show (936 : Nat) = 928 + 8 from rfl, steps_add, u116]; exact t117
  have u118 : steps helloProg helloWorm 944 initState = ⟨[0, 56, 75], 1, 26, [72]⟩ := by
    rw [show (944 : Nat) = 936 + 8 from rfl, steps_add, u117]; exact t118
  have u119 : steps helloProg helloWorm 952 initState = ⟨[0, 55, 80], 2, 25, [72]⟩ := by
    rw [show (952 : Nat) = 944 + 8 from rfl, steps_add, u118]; exact t119
  have u120 : steps helloProg helloWorm 960 initState = ⟨[0, 54, 84], 2, 24, [72]⟩ := by
    rw [show (960 : Nat) = 952 + 8 from rfl, steps_add, u119]; exact t120
  have u121 : steps helloProg helloWorm 968 initState = ⟨[0, 53, 88], 2, 23, [72]⟩ := by
    rw [show (968 : Nat) = 960 + 8 from rfl, steps_add, u120]; exact t121
  have u122 : steps helloProg helloWorm 976 initState = ⟨[0, 52, 92], 2, 22, [72]⟩ := by
    rw [show (976 : Nat) = 968 + 8 from rfl, steps_add, u121]; exact t122
  have u123 : steps helloProg helloWorm 984 initState = ⟨[0, 51, 96], 2, 21, [72]⟩ := by
    rw [show (984 : Nat) = 976 + 8 from rfl, steps_add, u122]; exact t123
  have u124 : steps helloProg helloWorm 992 initState = ⟨[0, 50, 100], 2, 20, [72]⟩ := by
    rw [show (992 : Nat) = 984 + 8 from rfl, steps_add, u123]; exact t124
  have u125 : steps helloProg helloWorm 1000 initState = ⟨[0, 49, 105], 1, 19, [72]⟩ := by
    rw [show (1000 : Nat) = 992 + 8 from rfl, steps_add, u124]; exact t125
  have u126 : steps helloProg helloWorm 1008 initState = ⟨[0, 49, 110], 1, 18, [72]⟩ := by
    rw [show (1008 : Nat) = 1000 + 8 from rfl, steps_add, u125]; exact t126
  have u127 : steps helloProg helloWorm 1016 initState = ⟨[0, 48, 115], 1, 26, [72]⟩ := by
    rw [show (1016 : Nat) = 1008 + 8 from rfl, steps_add, u126]; exact t127
  have u128 : steps helloProg helloWorm 1024 initState = ⟨[0, 47, 120], 2, 25, [72]⟩ := by
    rw [show (1024 : Nat) = 1016 + 8 from rfl, steps_add, u127]; exact t128
  have u129 : steps helloProg helloWorm 1032 initState = ⟨[0, 46, 124], 2, 24, [72]⟩ := by
    rw [show (1032 : Nat) = 1024 + 8 from rfl, steps_add, u128]; exact t129
  have u130 : steps helloProg helloWorm 1040 initState = ⟨[0, 45, 128], 2, 23, [72]⟩ := by
    rw [show (1040 : Nat) = 1032 + 8 from rfl, steps_add, u129]; exact t130
  have u131 : steps helloProg helloWorm 1048 initState = ⟨[0, 44, 132], 2, 22, [72]⟩ := by
    rw [show (1048 : Nat) = 1040 + 8 from rfl, steps_add, u130]; exact t131
  have u132 : steps helloProg helloWorm 1056 initState = ⟨[0, 43, 136], 2, 21, [72]⟩ := by
    rw [show (1056 : Nat) = 1048 + 8 from rfl, steps_add, u131]; exact t132
  have u133 : steps helloProg helloWorm 1064 initState = ⟨[0, 42, 140], 2, 20, [72]⟩ := by
    rw [show (1064 : Nat) = 1056 + 8 from rfl, steps_add, u132]; exact t133
  have u134 : steps helloProg helloWorm 1072 initState = ⟨[0, 41, 145], 1, 19, [72]⟩ := by
    rw [show (1072 : Nat) = 1064 + 8 from rfl, steps_add, u133]; exact t134
  have u135 : steps helloProg helloWorm 1080 initState = ⟨[0, 41, 150], 1, 18, [72]⟩ := by
    rw [show (1080 : Nat) = 1072 + 8 from rfl, steps_add, u134]; exact t135
  have u136 : steps helloProg helloWorm 1088 initState = ⟨[0, 40, 155], 1, 26, [72]⟩ := by
    rw [show (1088 : Nat) = 1080 + 8 from rfl, steps_add, u135]; exact t136
  have u137 : steps helloProg helloWorm 1096 initState = ⟨[0, 39, 160], 2, 25, [72]⟩ := by
    rw [show (1096 : Nat) = 1088 + 8 from rfl, steps_add, u136]; exact t137
  have u138 : steps helloProg helloWorm 1104 initState = ⟨[0, 38, 164], 2, 24, [72]⟩ := by
    rw [show (1104 : Nat) = 1096 + 8 from rfl, steps_add, u137]; exact t138
  have u139 : steps helloProg helloWorm 1112 initState = ⟨[0, 37, 168], 2, 23, [72]⟩ := by
    rw [show (1112 : Nat) = 1104 + 8 from rfl, steps_add, u138]; exact t139
  have u140 : steps helloProg helloWorm 1120 initState = ⟨[0, 36, 172], 2, 22, [72]⟩ := by
    rw [show (1120 : Nat) = 1112 + 8 from rfl, steps_add, u139]; exact t140
  have u141 : steps helloProg helloWorm 1128 initState = ⟨[0, 35, 176], 2, 21, [72]⟩ := by
    rw [show (1128 : Nat) = 1120 + 8 from rfl, steps_add, u140]; exact t141
  have u142 : steps helloProg helloWorm 1136 initState = ⟨[0, 34, 180], 2, 20, [72]⟩ := by
    rw [show (1136 : Nat) = 1128 + 8 from rfl, steps_add, u141]; exact t142
  have u143 : steps helloProg helloWorm 1144 initState = ⟨[0, 33, 185], 1, 19, [72]⟩ := by
    rw [show (1144 : Nat) = 1136 + 8 from rfl, steps_add, u142]; exact t143
  have u144 : steps helloProg helloWorm 1152 initState = ⟨[0, 33, 190], 1, 18, [72]⟩ := by
    rw [show (1152 : Nat) = 1144 + 8 from rfl, steps_add, u143]; exact t144
  have u145 : steps helloProg helloWorm 1160 initState = ⟨[0, 32, 195], 1, 26, [72]⟩ := by
    rw [show (1160 : Nat) = 1152 + 8 from rfl, steps_add, u144]; exact t145
  have u146 : steps helloProg helloWorm 1168 initState = ⟨[0, 31, 200], 2, 25, [72]⟩ := by
    rw [show (1168 : Nat) = 1160 + 8 from rfl, steps_add, u145]; exact t146
  have u147 : steps helloProg helloWorm 1176 initState = ⟨[0, 30, 204], 2, 24, [72]⟩ := by
    rw [show (1176 : Nat) = 1168 + 8 from rfl, steps_add, u146]; exact t147
  have u148 : steps helloProg helloWorm 1184 initState = ⟨[0, 29, 208], 2, 23, [72]⟩ := by
    rw [show (1184 : Nat) = 1176 + 8 from rfl, steps_add, u147]; exact t148
  have u149 : steps helloProg helloWorm 1192 initState = ⟨[0, 28, 212], 2, 22, [72]⟩ := by
    rw [show (1192 : Nat) = 1184 + 8 from rfl, steps_add, u148]; exact t149
  have u150 : steps helloProg helloWorm 1200 initState = ⟨[0, 27, 216], 2, 21, [72]⟩ := by
    rw [show (1200 : Nat) = 1192 + 8 from rfl, steps_add, u149]; exact t150
  have u151 : steps helloProg helloWorm 1208 initState = ⟨[0, 26, 220], 2, 20, [72]⟩ := by
    rw [show (1208 : Nat) = 1200 + 8 from rfl, steps_add, u150]; exact t151
  have u152 : steps helloProg helloWorm 1216 initState = ⟨[0, 25, 225], 1, 19, [72]⟩ := by
    rw [show (1216 : Nat) = 1208 + 8 from rfl, steps_add, u151]; exact t152
  have u153 : steps helloProg helloWorm 1224 initState = ⟨[0, 25, 230], 1, 18, [72]⟩ := by
    rw [show (1224 : Nat) = 1216 + 8 from rfl, steps_add, u152]; exact t153
  have u154 : steps helloProg helloWorm 1232 initState = ⟨[0, 24, 235], 1, 26, [72]⟩ := by
    rw [show (1232 : Nat) = 1224 + 8 from rfl, steps_add, u153]; exact t154
  have u155 : steps helloProg helloWorm 1240 initState = ⟨[0, 23, 240], 2, 25, [72]⟩ := by
    rw [show (1240 : Nat) = 1232 + 8 from rfl, steps_add, u154]; exact t155
  have u156 : steps helloProg helloWorm 1248 initState = ⟨[0, 22, 244], 2, 24, [72]⟩ := by
    rw [show (1248 : Nat) = 1240 + 8 from rfl, steps_add, u155]; exact t156
  have u157 : steps helloProg helloWorm 1256 initState = ⟨[0, 21, 248], 2, 23, [72]⟩ := by
    rw [show (1256 : Nat) = 1248 + 8 from rfl, steps_add, u156]; exact t157
  have u158 : steps helloProg helloWorm 1264 initState = ⟨[0, 20, 252], 2, 22, [72]⟩ := by
    rw [show (1264 : Nat) = 1256 + 8 from rfl, steps_add, u157]; exact t158
  have u159 : steps helloProg helloWorm 1272 initState = ⟨[0, 19, 0], 2, 21, [72]⟩ := by
    rw [show (1272 : Nat) = 1264 + 8 from rfl, steps_add, u158]; exact t159
  have u160 : steps helloProg helloWorm 1280 initState = ⟨[0, 18, 4], 2, 20, [72]⟩ := by
    rw [show (1280 : Nat) = 1272 + 8 from rfl, steps_add, u159]; exact t160
  have u161 : steps helloProg helloWorm 1288 initState = ⟨[0, 17, 9], 1, 19, [72]⟩ := by
    rw [show (1288 : Nat) = 1280 + 8 from rfl, steps_add, u160]; exact t161
  have u162 : steps helloProg helloWorm 1296 initState = ⟨[0, 17, 14], 1, 18, [72]⟩ := by
    rw [show (1296 : Nat) = 1288 + 8 from rfl, steps_add, u161]; exact t162
  have u163 : steps helloProg helloWorm 1304 initState = ⟨[0, 16, 19], 1, 26, [72]⟩ := by
    rw [show (1304 : Nat) = 1296 + 8 from rfl, steps_add, u162]; exact t163
  have u164 : steps helloProg helloWorm 1312 initState = ⟨[0, 15, 24], 2, 25, [72]⟩ := by
    rw [show (1312 : Nat) = 1304 + 8 from rfl, steps_add, u163]; exact t164
  have u165 : steps helloProg helloWorm 1320 initState = ⟨[0, 14, 28], 2, 24, [72]⟩ := by
    rw [show (1320 : Nat) = 1312 + 8 from rfl, steps_add, u164]; exact t165
  have u166 : steps helloProg helloWorm 1328 initState = ⟨[0, 13, 32], 2, 23, [72]⟩ := by
    rw [show (1328 : Nat) = 1320 + 8 from rfl, steps_add, u165]; exact t166
  have u167 : steps helloProg helloWorm 1336 initState = ⟨[0, 12, 36], 2, 22, [72]⟩ := by
    rw [show (1336 : Nat) = 1328 + 8 from rfl, steps_add, u166]; exact t167
  have u168 : steps helloProg helloWorm 1344 initState = ⟨[0, 11, 40], 2, 21, [72]⟩ := by
    rw [show (1344 : Nat) = 1336 + 8 from rfl, steps_add, u167]; exact t168
  have u169 : steps helloProg helloWorm 1352 initState = ⟨[0, 10, 44], 2, 20, [72]⟩ := by
    rw [show (1352 : Nat) = 1344 + 8 from rfl, steps_add, u168]; exact t169
  have u170 : steps helloProg helloWorm 1360 initState = ⟨[0, 9, 49], 1, 19, [72]⟩ := by
    rw [show (1360 : Nat) = 1352 + 8 from rfl, steps_add, u169]; exact t170
  have u171 : steps helloProg helloWorm 1368 initState = ⟨[0, 9, 54], 1, 18, [72]⟩ := by
    rw [show (1368 : Nat) = 1360 + 8 from rfl, steps_add, u170]; exact t171
  have u172 : steps helloProg helloWorm 1376 initState = ⟨[0, 8, 59], 1, 26, [72]⟩ := by
    rw [show (1376 : Nat) = 1368 + 8 from rfl, steps_add, u171]; exact t172
  have u173 : steps helloProg helloWorm 1384 initState = ⟨[0, 7, 64], 2, 25, [72]⟩ := by
    rw [show (1384 : Nat) = 1376 + 8 from rfl, steps_add, u172]; exact t173
  have u174 : steps helloProg helloWorm 1392 initState = ⟨[0, 6, 68], 2, 24, [72]⟩ := by
    rw [show (1392 : Nat) = 1384 + 8 from rfl, steps_add, u173]; exact t174
  have u175 : steps helloProg helloWorm 1400 initState = ⟨[0, 5, 72], 2, 23, [72]⟩ := by
    rw [show (1400 : Nat) = 1392 + 8 from rfl, steps_add, u174]; exact t175
  have u176 : steps helloProg helloWorm 1408 initState = ⟨[0, 4, 76], 2, 22, [72]⟩ := by
    rw [show (1408 : Nat) = 1400 + 8 from rfl, steps_add, u175]; exact t176
  have u177 : steps helloProg helloWorm 1416 initState = ⟨[0, 3, 80], 2, 21, [72]⟩ := by
    rw [show (1416 : Nat) = 1408 + 8 from rfl, steps_add, u176]; exact t177
  have u178 : steps helloProg helloWorm 1424 initState = ⟨[0, 2, 84], 2, 20, [72]⟩ := by
    rw [show (1424 : Nat) = 1416 + 8 from rfl, steps_add, u177]; exact t178
  have u179 : steps helloProg helloWorm 1432 initState = ⟨[0, 1, 89], 1, 19, [72]⟩ := by
    rw [show (1432 : Nat) = 1424 + 8 from rfl, steps_add, u178]; exact t179
  have u180 : steps helloProg helloWorm 1440 initState = ⟨[0, 1, 94], 1, 18, [72]⟩ := by
    rw [show (1440 : Nat) = 1432 + 8 from rfl, steps_add, u179]; exact t180
  have u181 : steps helloProg helloWorm 1448 initState = ⟨[0, 0, 99], 1, 26, [72]⟩ := by
    rw [show (1448 : Nat) = 1440 + 8 from rfl, steps_add, u180]; exact t181
  have u182 : steps helloProg helloWorm 1456 initState = ⟨[0, 0, 104], 2, 34, [72, 101]⟩ := by
    rw [show (1456 : Nat) = 1448 + 8 from rfl, steps_add, u181]; exact t182
  have u183 : steps helloProg helloWorm 1464 initState = ⟨[0, 0, 110], 2, 42, [72, 101, 108, 108]⟩ := by
    rw [show (1464 : Nat) = 1456 + 8 from rfl, steps_add, u182]; exact t183
  have u184 : steps helloProg helloWorm 1472 initState = ⟨[0, 0, 111], 2, 44, [72, 101, 108, 108, 111]⟩ := by
    rw [show (1472 : Nat) = 1464 + 8 from rfl, steps_add, u183]; exact t184
  have hfin : runFor helloProg helloWorm 1473 initState = some ⟨[0, 0, 111], 2, 44, [72, 101, 108, 108, 111]⟩ := by
    have hh := runFor_eq_of_steps helloProg helloWorm 1472 initState (by rw [u184]; rfl)
    rw [u184] at hh
    exact hh
  have hrun : runFor helloProg helloWorm 1500 initState = some ⟨[0, 0, 111], 2, 44, [72, 101, 108, 108, 111]⟩ :=
    runFor_mono helloProg helloWorm 1473 1500 initState _ hfin (by omega)
  have hrun2 : run_hand_ast 1500 helloProg
      = some ⟨[0, 0, 111], 2, 44, [72, 101, 108, 108, 111]⟩ := hrun
  have hparse : parse_hand_code helloCode.data = some helloProg := by rfl
  rw [hparse, Option.some_bind, hrun2]
  rfl



/-- Claim C2: with the jump table built by `calc_wormholes`, executing
`LoopStart` on a zero cell sets the program counter to one past the
table target (the matching `LoopEnd`, by the C4 theorem), executing
`LoopEnd` on a nonzero cell sets it to one past the table target (the
matching `LoopStart`), and in every other case (fall-through loop
markers, the five other instructions, and a missing cell) the program
counter advances by exactly 1. -/
theorem c2_loop_jump_semantics (prog : List Instruction) (st : State)
    (w : Nat → Option Nat) ( _hw : w = calc_wormholes prog) :
    (∀ e, prog[st.flow_offset]? = some Instruction.LoopStart →
        st.buffer[st.cursor]? = some 0 → w st.flow_offset = some e →
        (execIns w st Instruction.LoopStart).flow_offset = e + 1)
  ∧ (∀ s v, prog[st.flow_offset]? = some Instruction.LoopEnd →
        st.buffer[st.cursor]? = some v → v ≠ 0 → w st.flow_offset = some s →
        (execIns w st Instruction.LoopEnd).flow_offset = s + 1)
  ∧ (∀ ins, prog[st.flow_offset]? = some ins →
        ¬(ins = Instruction.LoopStart ∧ st.buffer[st.cursor]? = some 0) →
        ¬(ins = Instruction.LoopEnd ∧ ∃ v, st.buffer[st.cursor]? = some v ∧ v ≠ 0) →
        (execIns w st ins).flow_offset = st.flow_offset + 1) := by
  refine ⟨?_, ?_, ?_⟩
  · intro e _ hb hwl
    simp [execIns, hb, hwl]
  · intro s v _ hb hv hwl
    simp [execIns, hb, hv, hwl]
  · intro ins _ hns hne
    cases ins with
    | Next => simp [execIns]
    | Previous => simp [execIns]
    | Increment => cases hb : st.buffer[st.cursor]? <;> simp [execIns, hb]
    | Decrease => cases hb : st.buffer[st.cursor]? <;> simp [execIns, hb]
    | Print => cases hb : st.buffer[st.cursor]? <;> simp [execIns, hb]
    | LoopStart =>
        cases hb : st.buffer[st.cursor]? with
        | none => simp [execIns, hb]
        | some v =>
            have hv : v ≠ 0 := fun hv0 => hns ⟨rfl, by rw [hb, hv0]⟩
            simp [execIns, hb, hv]
    | LoopEnd =>
        cases hb : st.buffer[st.cursor]? with
        | none => simp [execIns, hb]
        | some v =>
            have hv : v = 0 := by
              by_contra hv0
              exact hne ⟨rfl, v, hb, hv0⟩
            simp [execIns, hb, hv]

/-- Witness for C2: in the program 🤜🤛 with a zero cell, the
`LoopStart` at offset 0 jumps to its table target 1 plus 1. -/
theorem c2_witness :
    (execIns (calc_wormholes [Instruction.LoopStart, Instruction.LoopEnd])
        initState Instruction.LoopStart).flow_offset = 1 + 1 :=
  (c2_loop_jump_semantics [Instruction.LoopStart, Instruction.LoopEnd] initState
    (calc_wormholes [Instruction.LoopStart, Instruction.LoopEnd]) rfl).1 1
    (by rfl) (by rfl) (by rfl)

set_option maxRecDepth 40000 in
/-- Claim C3: `Increment` and `Decrease` act modulo 256 on the cell at
the cursor (`overflowing_add`/`overflowing_sub` on `u8`): a cell holding
`v` becomes `(v + 1) % 256` resp. `(v + 255) % 256` (the latter equals
the integer `(v - 1) mod 256`); 256 consecutive Increments on the zero
initial cell return it to 0, and one Decrease on a zero cell gives 255. -/
theorem c3_cell_arith_mod256 :
    (∀ (w : Nat → Option Nat) (st : State) (v : Nat), st.buffer[st.cursor]? = some v →
        (execIns w st Instruction.Increment).buffer[st.cursor]? = some ((v + 1) % 256)
      ∧ (execIns w st Instruction.Decrease).buffer[st.cursor]? = some ((v + 255) % 256)
      ∧ (((v + 255) % 256 : Nat) : Int) = ((v : Int) - 1) % 256)
  ∧ run_hand_ast 257 (List.replicate 256 Instruction.Increment) = some ⟨[0], 0, 256, []⟩
  ∧ run_hand_ast 2 [Instruction.Decrease] = some ⟨[255], 0, 1, []⟩ := by
  refine ⟨?_, ?_, ?_⟩
  · intro w st v hb
    have hlt : st.cursor < st.buffer.length := by
      rcases List.getElem?_eq_some.mp hb with ⟨h, _⟩
      exact h
    refine ⟨?_, ?_, ?_⟩
    · simp [execIns, hb, List.getElem?_set_self hlt]
    · simp [execIns, hb, List.getElem?_set_self hlt]
    · push_cast
      omega
  · rfl
  · rfl

/-- Witness for C3: incrementing the zero cell of the initial state
yields cell value 1 = (0 + 1) % 256. -/
theorem c3_witness :
    (execIns (fun _ => none) initState Instruction.Increment).buffer[initState.cursor]?
      = some ((0 + 1) % 256) :=
  ((c3_cell_arith_mod256.1 (fun _ => none) initState 0 (by rfl)).1)

/-- Claim C5 (refuted by the code, see C5 status): `Previous` at cursor
0 does not produce any error: in the wrapping model of the release-mode
build the cursor wraps to `usize::MAX = 2^64 - 1` and the run of the
one-instruction program 👈 returns `Ok` (`some`) with empty output (a
debug build instead panics on the subtraction overflow — in neither
mode is a typed underflow error surfaced to the caller). -/
theorem c5_underflow_wraps :
    run_hand_ast 2 [Instruction.Previous] = some ⟨[0], USIZE - 1, 1, []⟩ := by rfl

/-- Claim C6 (refuted by the code, see C6 status): the program 🤛 with
an unmatched `LoopEnd` is not rejected: `calc_wormholes` silently
returns an empty table (no error value exists in its signature) and
`run_hand_ast` runs the program to normal completion; likewise an
unmatched `LoopStart` (program 🤜) is silently ignored and executed. -/
theorem c6_unmatched_markers_not_rejected :
    (∀ k, calc_wormholes [Instruction.LoopEnd] k = none)
  ∧ run_hand_ast 2 [Instruction.LoopEnd] = some ⟨[0], 0, 1, []⟩
  ∧ (∀ k, calc_wormholes [Instruction.LoopStart] k = none)
  ∧ run_hand_ast 2 [Instruction.LoopStart] = some ⟨[0], 0, 1, []⟩ :=
  ⟨fun _ => rfl, rfl, fun _ => rfl, rfl⟩

/-- Claim C8: when a taken jump looks up an offset the table misses,
`unwrap_or(&0)` makes the program counter fall back to target 0, which
the trailing `flow_offset += 1` then advances to `0 + 1`; no error is
reported (the run continues as if the jump target were offset 0). -/
theorem c8_miss_falls_back_to_zero (prog : List Instruction) (st : State)
    (hmiss : calc_wormholes prog st.flow_offset = none) :
    (st.buffer[st.cursor]? = some 0 →
        (execIns (calc_wormholes prog) st Instruction.LoopStart).flow_offset = 0 + 1)
  ∧ (∀ v, st.buffer[st.cursor]? = some v → v ≠ 0 →
        (execIns (calc_wormholes prog) st Instruction.LoopEnd).flow_offset = 0 + 1) := by
  constructor
  · intro hb
    simp [execIns, hb, hmiss]
  · intro v hb hv
    simp [execIns, hb, hv, hmiss]

/-- Witness for C8: in the program 🤜 (whose jump table is empty), the
`LoopStart` jump on the zero cell falls back to offset 0, advanced to 1. -/
theorem c8_witness :
    (execIns (calc_wormholes [Instruction.LoopStart]) initState
        Instruction.LoopStart).flow_offset = 0 + 1 :=
  (c8_miss_falls_back_to_zero [Instruction.LoopStart] initState (by rfl)).1 (by rfl)

/-- Claim C9: `Next` increments the cursor by exactly 1 (below the
`usize` wrap), leaves the tape unchanged when the new cursor is still
in range, appends exactly one zero cell when it is at or past the end,
and never changes the value of an existing cell. -/
theorem c9_moveright (w : Nat → Option Nat) (st : State) (h : st.cursor + 1 < USIZE) :
    (execIns w st Instruction.Next).cursor = st.cursor + 1
  ∧ (st.cursor + 1 < st.buffer.length → (execIns w st Instruction.Next).buffer = st.buffer)
  ∧ (st.buffer.length ≤ st.cursor + 1 →
        (execIns w st Instruction.Next).buffer = st.buffer ++ [0])
  ∧ (∀ i, i < st.buffer.length →
        (execIns w st Instruction.Next).buffer[i]? = st.buffer[i]?) := by
  have hm : (st.cursor + 1) % USIZE = st.cursor + 1 := Nat.mod_eq_of_lt h
  refine ⟨by simp [execIns, hm], ?_, ?_, ?_⟩
  · intro hlt
    simp [execIns, hm, hlt]
  · intro hge
    simp [execIns, hm, Nat.not_lt.mpr hge]
  · intro i hi
    by_cases hlt : st.cursor + 1 < st.buffer.length
    · simp [execIns, hm, hlt]
    · simp [execIns, hm, hlt, List.getElem?_append_left hi]

/-- Witness for C9: a `Next` from the initial state moves the cursor to
1 and appends one zero cell. -/
theorem c9_witness :
    (execIns (fun _ => none) initState Instruction.Next).cursor = 0 + 1
  ∧ (execIns (fun _ => none) initState Instruction.Next).buffer = [0] ++ [0] :=
  ⟨(c9_moveright (fun _ => none) initState (by decide)).1,
   (c9_moveright (fun _ => none) initState (by decide)).2.2.1 (by decide)⟩

/-- Unfolding equation of the scan: empty instruction list. -/
lemma calcAux_nil (offset : Nat) (starts : List Nat) (m : Nat → Option Nat) :
    calcAux [] offset starts m = m := rfl

/-- Unfolding equation of the scan: a `LoopStart` pushes its offset. -/
lemma calcAux_cons_start (rest : List Instruction) (offset : Nat) (starts : List Nat)
    (m : Nat → Option Nat) :
    calcAux (Instruction.LoopStart :: rest) offset starts m
      = calcAux rest (offset + 1) (offset :: starts) m := rfl

/-- Unfolding equation of the scan: a `LoopEnd` with empty stack is skipped. -/
lemma calcAux_cons_end_nil (rest : List Instruction) (offset : Nat) (m : Nat → Option Nat) :
    calcAux (Instruction.LoopEnd :: rest) offset [] m = calcAux rest (offset + 1) [] m := rfl

/-- Unfolding equation of the scan: a `LoopEnd` pops the stack and
records the bidirectional pair. -/
lemma calcAux_cons_end_cons (rest : List Instruction) (offset : Nat) (start : Nat)
    (starts' : List Nat) (m : Nat → Option Nat) :
    calcAux (Instruction.LoopEnd :: rest) offset (start :: starts') m
      = calcAux rest (offset + 1) starts'
          (mapInsert (mapInsert m start offset) offset start) := rfl

/-- Unfolding equations of the scan: the five non-marker instructions. -/
lemma calcAux_cons_other (ins : Instruction) (rest : List Instruction) (offset : Nat)
    (starts : List Nat) (m : Nat → Option Nat)
    (h1 : ins ≠ Instruction.LoopStart) (h2 : ins ≠ Instruction.LoopEnd) :
    calcAux (ins :: rest) offset starts m = calcAux rest (offset + 1) starts m := by
  cases ins <;> first | rfl | exact absurd rfl h1 | exact absurd rfl h2

/-- Main invariant of the `calc_wormholes` scan: under the inductive
invariant on the pending-starts stack and the partial map, every entry
of the final map is half of a symmetric pair whose two offsets hold a
`LoopStart` and a `LoopEnd` of the program. -/
lemma calcAux_spec (prog : List Instruction) :
    ∀ (l : List Instruction) (offset : Nat) (starts : List Nat) (m : Nat → Option Nat),
      prog.drop offset = l →
      (∀ s ∈ starts, s < offset ∧ prog[s]? = some Instruction.LoopStart ∧ m s = none) →
      List.Pairwise (fun a b => a ≠ b) starts →
      (∀ k v, m k = some v → m v = some k ∧ k < offset ∧ v < offset ∧
        ((prog[k]? = some Instruction.LoopStart ∧ prog[v]? = some Instruction.LoopEnd)
          ∨ (prog[k]? = some Instruction.LoopEnd ∧ prog[v]? = some Instruction.LoopStart)) ∧
        (∀ s ∈ starts, k ≠ s)) →
      ∀ k v, calcAux l offset starts m k = some v →
        calcAux l offset starts m v = some k ∧
        ((prog[k]? = some Instruction.LoopStart ∧ prog[v]? = some Instruction.LoopEnd)
          ∨ (prog[k]? = some Instruction.LoopEnd ∧ prog[v]? = some Instruction.LoopStart)) := by
  intro l
  induction l with
  | nil =>
      intro offset starts m _ _ _ hm k v hk
      rw [calcAux_nil] at hk ⊢
      exact ⟨(hm k v hk).1, (hm k v hk).2.2.2.1⟩
  | cons ins rest ih =>
      intro offset starts m hdrop hstarts hpair hm k v hk
      have hins : prog[offset]? = some ins := by
        have h0 := List.getElem?_drop prog offset 0
        rw [hdrop] at h0
        simpa using h0.symm
      have hdrop' : prog.drop (offset + 1) = rest := by
        have h2 : List.drop 1 (List.drop offset prog) = List.drop (offset + 1) prog :=
          List.drop_drop 1 offset prog
        rw [← h2, hdrop]
        rfl
      cases ins with
      | LoopStart =>
          rw [calcAux_cons_start] at hk ⊢
          have hmoff : m offset = none := by
            cases hmo : m offset with
            | none => rfl
            | some x => exact absurd (hm offset x hmo).2.1 (lt_irrefl offset)
          refine ih (offset + 1) (offset :: starts) m hdrop' ?_ ?_ ?_ k v hk
          · intro s hs
            rcases List.mem_cons.mp hs with rfl | hs'
            · exact ⟨Nat.lt_succ_self _, hins, hmoff⟩
            · obtain ⟨ha, hb, hc⟩ := hstarts s hs'
              exact ⟨Nat.lt_succ_of_lt ha, hb, hc⟩
          · refine List.Pairwise.cons ?_ hpair
            intro s hs
            exact Nat.ne_of_gt (hstarts s hs).1
          · intro k' v' hkv'
            obtain ⟨ha, hb, hc, hd, he⟩ := hm k' v' hkv'
            refine ⟨ha, Nat.lt_succ_of_lt hb, Nat.lt_succ_of_lt hc, hd, ?_⟩
            intro s hs
            rcases List.mem_cons.mp hs with rfl | hs'
            · exact Nat.ne_of_lt hb
            · exact he s hs'
      | LoopEnd =>
          cases starts with
          | nil =>
              rw [calcAux_cons_end_nil] at hk ⊢
              refine ih (offset + 1) [] m hdrop' (by simp) List.Pairwise.nil ?_ k v hk
              intro k' v' hkv'
              obtain ⟨ha, hb, hc, hd, _⟩ := hm k' v' hkv'
              exact ⟨ha, Nat.lt_succ_of_lt hb, Nat.lt_succ_of_lt hc, hd, by simp⟩
          | cons start starts' =>
              rw [calcAux_cons_end_cons] at hk ⊢
              obtain ⟨hslt, hsLS, hsnone⟩ := hstarts start (List.mem_cons_self _ _)
              have hso : start ≠ offset := Nat.ne_of_lt hslt
              refine ih (offset + 1) starts'
                (mapInsert (mapInsert m start offset) offset start) hdrop' ?_
                (List.Pairwise.of_cons hpair) ?_ k v hk
              · intro s hs
                obtain ⟨ha, hb, hc⟩ := hstarts s (List.mem_cons_of_mem _ hs)
                have hss : s ≠ start := (List.rel_of_pairwise_cons hpair hs).symm
                have hsoff : s ≠ offset := Nat.ne_of_lt ha
                refine ⟨Nat.lt_succ_of_lt ha, hb, ?_⟩
                simp only [mapInsert, if_neg hsoff, if_neg hss]
                exact hc
              · intro k' v' hkv'
                by_cases hk'o : k' = offset
                · subst hk'o
                  have hv' : start = v' := by
                    simpa [mapInsert] using hkv'
                  subst hv'
                  refine ⟨?_, Nat.lt_succ_self _, Nat.lt_succ_of_lt hslt,
                    Or.inr ⟨hins, hsLS⟩, ?_⟩
                  · simp [mapInsert, if_neg hso]
                  · intro s hs
                    exact Nat.ne_of_gt (hstarts s (List.mem_cons_of_mem _ hs)).1
                · by_cases hk's : k' = start
                  · subst hk's
                    have hv' : offset = v' := by
                      simpa [mapInsert, if_neg hso] using hkv'
                    subst hv'
                    refine ⟨?_, Nat.lt_succ_of_lt hslt, Nat.lt_succ_self _,
                      Or.inl ⟨hsLS, hins⟩, ?_⟩
                    · simp [mapInsert]
                    · intro s hs
                      exact (List.rel_of_pairwise_cons hpair hs)
                  · have hkv : m k' = some v' := by
                      simpa [mapInsert, if_neg hk'o, if_neg hk's] using hkv'
                    obtain ⟨ha, hb, hc, hd, he⟩ := hm k' v' hkv
                    have hv'start : v' ≠ start :=
                      (hm v' k' ha).2.2.2.2 start (List.mem_cons_self _ _)
                    have hv'off : v' ≠ offset := Nat.ne_of_lt hc
                    refine ⟨?_, Nat.lt_succ_of_lt hb, Nat.lt_succ_of_lt hc, hd, ?_⟩
                    · simp only [mapInsert, if_neg hv'off, if_neg hv'start]
                      exact ha
                    · intro s hs
                      exact he s (List.mem_cons_of_mem _ hs)
      | Next =>
          rw [calcAux_cons_other Instruction.Next rest offset starts m (by simp) (by simp)]
            at hk ⊢
          refine ih (offset + 1) starts m hdrop' ?_ hpair ?_ k v hk
          · intro s hs
            obtain ⟨ha, hb, hc⟩ := hstarts s hs
            exact ⟨Nat.lt_succ_of_lt ha, hb, hc⟩
          · intro k' v' hkv'
            obtain ⟨ha, hb, hc, hd, he⟩ := hm k' v' hkv'
            exact ⟨ha, Nat.lt_succ_of_lt hb, Nat.lt_succ_of_lt hc, hd, he⟩
      | Previous =>
          rw [calcAux_cons_other Instruction.Previous rest offset starts m (by simp) (by simp)]
            at hk ⊢
          refine ih (offset + 1) starts m hdrop' ?_ hpair ?_ k v hk
          · intro s hs
            obtain ⟨ha, hb, hc⟩ := hstarts s hs
            exact ⟨Nat.lt_succ_of_lt ha, hb, hc⟩
          · intro k' v' hkv'
            obtain ⟨ha, hb, hc, hd, he⟩ := hm k' v' hkv'
            exact ⟨ha, Nat.lt_succ_of_lt hb, Nat.lt_succ_of_lt hc, hd, he⟩
      | Increment =>
          rw [calcAux_cons_other Instruction.Increment rest offset starts m (by simp) (by simp)]
            at hk ⊢
          refine ih (offset + 1) starts m hdrop' ?_ hpair ?_ k v hk
          · intro s hs
            obtain ⟨ha, hb, hc⟩ := hstarts s hs
            exact ⟨Nat.lt_succ_of_lt ha, hb, hc⟩
          · intro k' v' hkv'
            obtain ⟨ha, hb, hc, hd, he⟩ := hm k' v' hkv'
            exact ⟨ha, Nat.lt_succ_of_lt hb, Nat.lt_succ_of_lt hc, hd, he⟩
      | Decrease =>
          rw [calcAux_cons_other Instruction.Decrease rest offset starts m (by simp) (by simp)]
            at hk ⊢
          refine ih (offset + 1) starts m hdrop' ?_ hpair ?_ k v hk
          · intro s hs
            obtain ⟨ha, hb, hc⟩ := hstarts s hs
            exact ⟨Nat.lt_succ_of_lt ha, hb, hc⟩
          · intro k' v' hkv'
            obtain ⟨ha, hb, hc, hd, he⟩ := hm k' v' hkv'
            exact ⟨ha, Nat.lt_succ_of_lt hb, Nat.lt_succ_of_lt hc, hd, he⟩
      | Print =>
          rw [calcAux_cons_other Instruction.Print rest offset starts m (by simp) (by simp)]
            at hk ⊢
          refine ih (offset + 1) starts m hdrop' ?_ hpair ?_ k v hk
          · intro s hs
            obtain ⟨ha, hb, hc⟩ := hstarts s hs
            exact ⟨Nat.lt_succ_of_lt ha, hb, hc⟩
          · intro k' v' hkv'
            obtain ⟨ha, hb, hc, hd, he⟩ := hm k' v' hkv'
            exact ⟨ha, Nat.lt_succ_of_lt hb, Nat.lt_succ_of_lt hc, hd, he⟩

/-- Claim C4: the jump table built by `calc_wormholes` is symmetric —
every entry `s ↦ e` has a partner entry `e ↦ s`, with a `LoopStart` at
one offset and a `LoopEnd` at the other — and the resolver is a pure
function, so resolving the same program twice yields an identical
table. -/
theorem c4_wormholes_symmetric_idempotent (prog : List Instruction) :
    (∀ s e, calc_wormholes prog s = some e →
        calc_wormholes prog e = some s
      ∧ ((prog[s]? = some Instruction.LoopStart ∧ prog[e]? = some Instruction.LoopEnd)
        ∨ (prog[s]? = some Instruction.LoopEnd ∧ prog[e]? = some Instruction.LoopStart)))
  ∧ calc_wormholes prog = calc_wormholes prog := by
  refine ⟨?_, rfl⟩
  intro s e h
  exact calcAux_spec prog prog 0 [] (fun _ => none) rfl (by simp) List.Pairwise.nil
    (fun k v hkv => Option.noConfusion hkv) s e h

/-- Witness for C4: in the program 🤜🤛 the recorded pair (0, 1) is
symmetric: the entry for offset 1 points back to offset 0. -/
theorem c4_witness :
    calc_wormholes [Instruction.LoopStart, Instruction.LoopEnd] 1 = some 0 :=
  ((c4_wormholes_symmetric_idempotent [Instruction.LoopStart, Instruction.LoopEnd]).1
    0 1 (by rfl)).1

/-- Claim C7: the lexer maps each of the seven symbols 1:1 to its
instruction (an input character is recognized exactly when it is one of
the seven, each to its own tag), ignores whitespace anywhere in the
input, and rejects the entire program whenever any character is neither
a recognized symbol nor whitespace. -/
theorem c7_lexer :
    (∀ (c : Char) (i : Instruction), charToIns c = some i ↔
        ((c = '👉' ∧ i = Instruction.Next) ∨ (c = '👈' ∧ i = Instruction.Previous)
        ∨ (c = '👆' ∧ i = Instruction.Increment) ∨ (c = '👇' ∧ i = Instruction.Decrease)
        ∨ (c = '🤜' ∧ i = Instruction.LoopStart) ∨ (c = '🤛' ∧ i = Instruction.LoopEnd)
        ∨ (c = '👊' ∧ i = Instruction.Print)))
  ∧ (∀ s : List Char,
        parse_hand_code s = parse_hand_code (s.filter (fun c => !(isSpaceChar c))))
  ∧ (∀ s : List Char, (∃ c ∈ s, isSpaceChar c = false ∧ charToIns c = none) →
        parse_hand_code s = none) := by
  refine ⟨?_, ?_, ?_⟩
  · intro c i
    constructor
    · intro h
      unfold charToIns at h
      split_ifs at h <;> simp_all
    · rintro (⟨rfl, rfl⟩ | ⟨rfl, rfl⟩ | ⟨rfl, rfl⟩ | ⟨rfl, rfl⟩ |
        ⟨rfl, rfl⟩ | ⟨rfl, rfl⟩ | ⟨rfl, rfl⟩) <;> rfl
  · intro s
    induction s with
    | nil => rfl
    | cons c rest ih =>
        by_cases hs : isSpaceChar c
        · simp [parse_hand_code, hs, ih]
        · cases h : charToIns c with
          | none => simp [parse_hand_code, hs, h]
          | some i => simp [parse_hand_code, hs, h, ih]
  · intro s
    induction s with
    | nil =>
        rintro ⟨c, hc, _⟩
        exact absurd hc (List.not_mem_nil c)
    | cons c rest ih =>
        rintro ⟨c', hc', hsp, hnone⟩
        rcases List.mem_cons.mp hc' with rfl | hmem
        · simp [parse_hand_code, hsp, hnone]
        · have hrest : parse_hand_code rest = none := ih ⟨c', hmem, hsp, hnone⟩
          by_cases hs : isSpaceChar c
          · simp [parse_hand_code, hs, hrest]
          · cases h : charToIns c with
            | none => simp [parse_hand_code, hs, h]
            | some i => simp [parse_hand_code, hs, h, hrest]

/-- Witness for C7: the input "a" (unrecognized, not whitespace) makes
the whole parse fail, and 👉 lexes to `Next`. -/
theorem c7_witness :
    parse_hand_code ['a'] = none ∧ charToIns '👉' = some Instruction.Next :=
  ⟨c7_lexer.2.2 ['a'] ⟨'a', by simp, by decide, by decide⟩,
   (c7_lexer.1 '👉' Instruction.Next).mpr (Or.inl ⟨rfl, rfl⟩)⟩

/-- States reachable from the initial state by executing instructions
of the program, none of which is a `Previous` (MoveLeft) executed at
cursor 0. -/
inductive ReachOK (prog : List Instruction) : State → Prop where
  | init : ReachOK prog initState
  | step (st : State) (i : Instruction) (h : ReachOK prog st)
      (hi : prog[st.flow_offset]? = some i)
      (hnl : ¬(i = Instruction.Previous ∧ st.cursor = 0)) :
      ReachOK prog (execIns (calc_wormholes prog) st i)

/-- Strengthened invariant for C10: along `ReachOK` executions the
cursor stays a valid tape index and below the `usize` modulus. -/
lemma reachOK_bounds (prog : List Instruction) (st : State) (h : ReachOK prog st) :
    st.cursor < st.buffer.length ∧ st.cursor < USIZE := by
  induction h with
  | init => exact ⟨by decide, by decide⟩
  | step st i h hi hnl ih =>
      obtain ⟨ih1, ih2⟩ := ih
      cases i with
      | Next =>
          have hle : (st.cursor + 1) % USIZE ≤ st.cursor + 1 := Nat.mod_le _ _
          have hlt : (st.cursor + 1) % USIZE < USIZE := Nat.mod_lt _ (by decide)
          by_cases hc : (st.cursor + 1) % USIZE < st.buffer.length
          · refine ⟨?_, ?_⟩ <;> simp [execIns, hc, hlt]
          · refine ⟨?_, ?_⟩ <;> simp [execIns, hc, hlt]
            omega
      | Previous =>
          have hc0 : st.cursor ≠ 0 := fun h0 => hnl ⟨rfl, h0⟩
          have hprev : (st.cursor + (USIZE - 1)) % USIZE = st.cursor - 1 := by
            have h1 : st.cursor + (USIZE - 1) = (st.cursor - 1) + USIZE := by
              have : 0 < USIZE := by decide
              omega
            rw [h1, Nat.add_mod_right, Nat.mod_eq_of_lt (by omega)]
          refine ⟨?_, ?_⟩ <;> simp [execIns, hprev] <;> omega
      | Increment =>
          cases hb : st.buffer[st.cursor]? with
          | none => exact ⟨by simpa [execIns, hb] using ih1, by simpa [execIns, hb] using ih2⟩
          | some v =>
              exact ⟨by simpa [execIns, hb, List.length_set] using ih1,
                by simpa [execIns, hb] using ih2⟩
      | Decrease =>
          cases hb : st.buffer[st.cursor]? with
          | none => exact ⟨by simpa [execIns, hb] using ih1, by simpa [execIns, hb] using ih2⟩
          | some v =>
              exact ⟨by simpa [execIns, hb, List.length_set] using ih1,
                by simpa [execIns, hb] using ih2⟩
      | LoopStart =>
          cases hb : st.buffer[st.cursor]? with
          | none => exact ⟨by simpa [execIns, hb] using ih1, by simpa [execIns, hb] using ih2⟩
          | some v =>
              by_cases hv : v = 0
              · exact ⟨by simpa [execIns, hb, hv] using ih1,
                  by simpa [execIns, hb, hv] using ih2⟩
              · exact ⟨by simpa [execIns, hb, hv] using ih1,
                  by simpa [execIns, hb, hv] using ih2⟩
      | LoopEnd =>
          cases hb : st.buffer[st.cursor]? with
          | none => exact ⟨by simpa [execIns, hb] using ih1, by simpa [execIns, hb] using ih2⟩
          | some v =>
              by_cases hv : v = 0
              · exact ⟨by simpa [execIns, hb, hv] using ih1,
                  by simpa [execIns, hb, hv] using ih2⟩
              · exact ⟨by simpa [execIns, hb, hv] using ih1,
                  by simpa [execIns, hb, hv] using ih2⟩
      | Print =>
          cases hb : st.buffer[st.cursor]? with
          | none => exact ⟨by simpa [execIns, hb] using ih1, by simpa [execIns, hb] using ih2⟩
          | some v =>
              exact ⟨by simpa [execIns, hb] using ih1, by simpa [execIns, hb] using ih2⟩

/-- Claim C10: in every state reachable from the initial state without
executing `Previous` at cursor 0, the cursor is a valid tape index, so
the cell lookup `buffer.get(cursor)` of Increment, Decrease, LoopStart,
LoopEnd and Print succeeds (their `None` guard branches are
unreachable). -/
theorem c10_cursor_in_bounds (prog : List Instruction) (st : State) (h : ReachOK prog st) :
    st.cursor < st.buffer.length ∧ (st.buffer[st.cursor]?).isSome = true := by
  obtain ⟨h1, _⟩ := reachOK_bounds prog st h
  refine ⟨h1, ?_⟩
  rw [List.getElem?_eq_getElem h1]
  rfl

/-- Witness for C10 at the initial state (reachable by zero steps). -/
theorem c10_witness :
    initState.cursor < initState.buffer.length
  ∧ (initState.buffer[initState.cursor]?).isSome = true :=
  c10_cursor_in_bounds [] initState ReachOK.init

end Hand
